import Mathlib

/-!
Verification development for the `uipathlib` repository: a shallow embedding
of `src/uipathlib/models.py` (pydantic v1 schemas) and
`src/uipathlib/uipath.py` (the `UiPath` Orchestrator client), together with
theorems settling the spec claims.

HTTP traffic is modelled by passing an explicit network function
`HttpRequest → HttpResponse`; each client method records the requests it
issued, the file it wrote (path and bytes), the branch-dependent log lines,
and either the returned `Response` dataclass or `none` when the Python code
would raise an exception. JSON bodies are an inductive `Json` type; pydantic
v1 validation of a declared field is modelled as a type check that returns
the value unchanged (pydantic's numeric/str coercions and datetime parsing
are abstracted: a datetime is represented by its source string).
-/

set_option autoImplicit false
set_option linter.unusedVariables false

namespace UiPath

/-- JSON values (numbers restricted to integers, which covers every body the
claims are about). -/
inductive Json where
  | null
  | bool (b : Bool)
  | int (n : Int)
  | str (s : String)
  | arr (xs : List Json)
  | obj (kvs : List (String × Json))

/-- A validated record: local field name to value (`Json.null` models Python
`None`). This is the embedding of the dict produced by `model.dict()`. -/
abbrev Dict := List (String × Json)

/-- `d["k"]` on a JSON value: `some` on an object with the key, `none`
otherwise (Python raises `KeyError` / `TypeError`). -/
def Json.getKey : Json → String → Option Json
  | .obj kvs, k => kvs.lookup k
  | _, _ => none

/-- The primitive field types declared in `models.py`. -/
inductive FTy where
  | int
  | str
  | bool
  | datetime
  | list
deriving DecidableEq

/-- One declared pydantic field: local name, vendor alias (field `falias`; `alias` is reserved in Lean), declared type and
whether it is `T | None` with `default=None`. -/
structure FieldSpec where
  name : String
  falias : String
  ty : FTy
  optional : Bool

/-- Pydantic v1 validation of one value at a declared primitive type,
modelled as a type check returning the value unchanged (`none` on a
`ValidationError`). A datetime is kept as its string. -/
def coerce : FTy → Json → Option Json
  | .int, .int n => some (.int n)
  | .str, .str s => some (.str s)
  | .bool, .bool b => some (.bool b)
  | .datetime, .str s => some (.str s)
  | .list, .arr xs => some (.arr xs)
  | _, _ => none

/-- Validate one declared field against an input record: a missing or null
value is accepted as `None` exactly for optional fields, a present value
must type-check. -/
def validateField (r : List (String × Json)) (f : FieldSpec) : Option (String × Json) :=
  match r.lookup f.falias with
  | none => if f.optional then some (f.name, Json.null) else none
  | some Json.null => if f.optional then some (f.name, Json.null) else none
  | some v => (coerce f.ty v).map (fun w => (f.name, w))

/-- Validate a JSON value against a list of declared fields: it must be an
object and every field must validate; the result is the `model.dict()`
association list, in declaration order. -/
def validateModel (fs : List FieldSpec) : Json → Option Dict
  | .obj r => fs.mapM (validateField r)
  | _ => none

/-- `ListAssets` (models.py lines 20-73). -/
def ListAssets.fields : List FieldSpec :=
  [ ⟨"id", "Id", .int, false⟩,
    ⟨"name", "Name", .str, false⟩,
    ⟨"external_name", "ExternalName", .str, true⟩,
    ⟨"has_default_value", "HasDefaultValue", .bool, false⟩,
    ⟨"value", "Value", .str, false⟩,
    ⟨"value_scope", "ValueScope", .str, false⟩,
    ⟨"value_type", "ValueType", .str, false⟩,
    ⟨"int_value", "IntValue", .int, false⟩,
    ⟨"string_value", "StringValue", .str, false⟩,
    ⟨"bool_value", "BoolValue", .bool, false⟩,
    ⟨"credential_username", "CredentialUsername", .str, false⟩,
    ⟨"credential_store_id", "CredentialStoreId", .int, true⟩,
    ⟨"can_be_deleted", "CanBeDeleted", .bool, false⟩,
    ⟨"description", "Description", .str, true⟩ ]

/-- `ListBuckets` (models.py lines 76-97). -/
def ListBuckets.fields : List FieldSpec :=
  [ ⟨"id", "Id", .int, false⟩,
    ⟨"identifier", "Identifier", .str, false⟩,
    ⟨"name", "Name", .str, false⟩,
    ⟨"description", "Description", .str, true⟩ ]

/-- `ListCalendars` (models.py lines 100-122). -/
def ListCalendars.fields : List FieldSpec :=
  [ ⟨"id", "Id", .int, false⟩,
    ⟨"name", "Name", .str, false⟩,
    ⟨"excluded_dates", "ExcludedDates", .list, false⟩,
    ⟨"time_zone_id", "TimeZoneId", .str, true⟩ ]

/-- `ListEnvironments` (models.py lines 125-146). -/
def ListEnvironments.fields : List FieldSpec :=
  [ ⟨"id", "Id", .int, false⟩,
    ⟨"name", "Name", .str, false⟩,
    ⟨"type", "Type", .str, false⟩,
    ⟨"description", "Description", .str, true⟩ ]

/-- `ListJobs` (models.py lines 149-192). -/
def ListJobs.fields : List FieldSpec :=
  [ ⟨"id", "Id", .int, false⟩,
    ⟨"key", "Key", .str, false⟩,
    ⟨"release_name", "ReleaseName", .str, false⟩,
    ⟨"host_machine_name", "HostMachineName", .str, true⟩,
    ⟨"type", "Type", .str, false⟩,
    ⟨"starting_schedule_id", "StartingScheduleId", .int, true⟩,
    ⟨"creation_time", "CreationTime", .datetime, true⟩,
    ⟨"start_time", "StartTime", .datetime, true⟩,
    ⟨"end_time", "EndTime", .datetime, true⟩,
    ⟨"state", "State", .str, false⟩,
    ⟨"source", "Source", .str, false⟩ ]

/-- `ListMachines` declared fields (models.py lines 195-226); the
`robot_versions` field additionally carries the `extract_robot_version`
pre-validator, embedded separately below. -/
def ListMachines.fields : List FieldSpec :=
  [ ⟨"id", "Id", .int, false⟩,
    ⟨"name", "Name", .str, false⟩,
    ⟨"description", "Description", .str, true⟩,
    ⟨"type", "Type", .str, false⟩,
    ⟨"non_production_slots", "NonProductionSlots", .int, false⟩,
    ⟨"unattended_slots", "UnattendedSlots", .int, false⟩,
    ⟨"robot_versions", "RobotVersions", .str, true⟩ ]

/-- `ListMachines.extract_robot_version` (models.py lines 230-236): if the
value is a non-empty list whose first element is a dict, return that dict's
`"Version"` entry (`None` when absent); otherwise return `None`. -/
def extract_robot_version : Json → Json
  | .arr (Json.obj kvs :: _) =>
      match kvs.lookup "Version" with
      | some v => v
      | none => Json.null
  | _ => Json.null

/-- Validate one `ListMachines` field: `robot_versions` first passes through
the `pre=True` validator (which runs only when the key is present), then
through the ordinary `str | None` check; every other field validates as
usual. -/
def validateMachinesField (r : List (String × Json)) (f : FieldSpec) : Option (String × Json) :=
  if f.name = "robot_versions" then
    match r.lookup f.falias with
    | none => some (f.name, Json.null)
    | some v =>
        match extract_robot_version v with
        | Json.null => some (f.name, Json.null)
        | w => (coerce f.ty w).map (fun u => (f.name, u))
  else
    validateField r f

/-- Validation for `ListMachines`, with the pre-validator applied. -/
def validateMachines : Json → Option Dict
  | .obj r => ListMachines.fields.mapM (validateMachinesField r)
  | _ => none

/-- `ListProcesses` (models.py lines 239-268); note `id` is a string. -/
def ListProcesses.fields : List FieldSpec :=
  [ ⟨"id", "Id", .str, false⟩,
    ⟨"key", "Key", .str, false⟩,
    ⟨"version", "Version", .str, false⟩,
    ⟨"published", "Published", .datetime, false⟩,
    ⟨"authors", "Authors", .str, false⟩,
    ⟨"description", "Description", .str, true⟩ ]

/-- `ListQueues` (models.py lines 271-289). -/
def ListQueues.fields : List FieldSpec :=
  [ ⟨"id", "Id", .int, false⟩,
    ⟨"name", "Name", .str, false⟩,
    ⟨"description", "Description", .str, true⟩ ]

/-- `ListQueueItems` (models.py lines 292-329). -/
def ListQueueItems.fields : List FieldSpec :=
  [ ⟨"id", "Id", .int, false⟩,
    ⟨"queue_definition_id", "QueueDefinitionId", .int, false⟩,
    ⟨"status", "Status", .str, false⟩,
    ⟨"reference", "Reference", .str, false⟩,
    ⟨"creation_time", "CreationTime", .datetime, false⟩,
    ⟨"start_processing", "StartProcessing", .datetime, true⟩,
    ⟨"end_processing", "EndProcessing", .datetime, true⟩,
    ⟨"retry_number", "RetryNumber", .int, false⟩,
    ⟨"specific_data", "SpecificData", .str, false⟩ ]

/-- `GetQueueItem` (models.py lines 332-369). -/
def GetQueueItem.fields : List FieldSpec :=
  [ ⟨"id", "Id", .int, false⟩,
    ⟨"queue_definition_id", "QueueDefinitionId", .int, false⟩,
    ⟨"status", "Status", .str, false⟩,
    ⟨"reference", "Reference", .str, false⟩,
    ⟨"creation_time", "CreationTime", .datetime, false⟩,
    ⟨"start_processing", "StartProcessing", .datetime, true⟩,
    ⟨"end_processing", "EndProcessing", .datetime, true⟩,
    ⟨"retry_number", "RetryNumber", .int, false⟩,
    ⟨"specific_data", "SpecificData", .str, false⟩ ]

/-- `AddQueueItem` (models.py lines 372-391). -/
def AddQueueItem.fields : List FieldSpec :=
  [ ⟨"id", "Id", .int, false⟩,
    ⟨"organization_unit_id", "OrganizationUnitId", .int, false⟩,
    ⟨"queue_definition_id", "QueueDefinitionId", .int, false⟩ ]

/-- `ListReleases` (models.py lines 394-419). -/
def ListReleases.fields : List FieldSpec :=
  [ ⟨"id", "Id", .int, false⟩,
    ⟨"key", "Key", .str, false⟩,
    ⟨"process_key", "ProcessKey", .str, false⟩,
    ⟨"process_version", "ProcessVersion", .str, false⟩,
    ⟨"environment_id", "EnvironmentId", .str, true⟩ ]

/-- `ListRobots` (models.py lines 422-450). -/
def ListRobots.fields : List FieldSpec :=
  [ ⟨"id", "Id", .int, false⟩,
    ⟨"machine_name", "MachineName", .str, true⟩,
    ⟨"name", "Name", .str, false⟩,
    ⟨"username", "Username", .str, false⟩,
    ⟨"type", "Type", .str, false⟩,
    ⟨"robot_environments", "RobotEnvironments", .str, false⟩ ]

/-- `ListRobotLogs` (models.py lines 453-490); the last local name is
`Machine_id` in the source. -/
def ListRobotLogs.fields : List FieldSpec :=
  [ ⟨"id", "Id", .int, false⟩,
    ⟨"job_key", "JobKey", .str, false⟩,
    ⟨"level", "Level", .str, false⟩,
    ⟨"windows_identity", "WindowsIdentity", .str, false⟩,
    ⟨"process_name", "ProcessName", .str, false⟩,
    ⟨"time_stamp", "TimeStamp", .str, false⟩,
    ⟨"message", "Message", .str, false⟩,
    ⟨"robot_name", "RobotName", .str, false⟩,
    ⟨"Machine_id", "MachineId", .int, false⟩ ]

/-- `ListRoles` (models.py lines 493-514). -/
def ListRoles.fields : List FieldSpec :=
  [ ⟨"id", "Id", .int, false⟩,
    ⟨"name", "Name", .str, false⟩,
    ⟨"display_name", "DisplayName", .str, false⟩,
    ⟨"type", "Type", .str, false⟩ ]

/-- `ListSchedules` (models.py lines 517-551). -/
def ListSchedules.fields : List FieldSpec :=
  [ ⟨"id", "Id", .int, false⟩,
    ⟨"name", "Name", .str, false⟩,
    ⟨"package_name", "PackageName", .str, false⟩,
    ⟨"environment_id", "EnvironmentId", .str, true⟩,
    ⟨"environment_name", "EnvironmentName", .str, true⟩,
    ⟨"start_process_cron", "StartProcessCron", .str, false⟩,
    ⟨"start_process_cron_summary", "StartProcessCronSummary", .str, false⟩,
    ⟨"enabled", "Enabled", .bool, false⟩ ]

/-- `ListSessions` (models.py lines 554-588). -/
def ListSessions.fields : List FieldSpec :=
  [ ⟨"id", "Id", .int, false⟩,
    ⟨"machine_id", "MachineId", .str, true⟩,
    ⟨"host_machine_name", "HostMachineName", .str, false⟩,
    ⟨"machine_name", "MachineName", .str, true⟩,
    ⟨"state", "State", .str, false⟩,
    ⟨"reporting_time", "ReportingTime", .str, false⟩,
    ⟨"organization_unit_id", "OrganizationUnitId", .str, true⟩,
    ⟨"folder_name", "FolderName", .str, true⟩ ]

/-- One HTTP request as built by the client: verb, URL, headers, query
parameters and optional JSON / form / raw body. -/
structure HttpRequest where
  verb : String
  url : String
  headers : List (String × String)
  params : List (String × String) := []
  jsonBody : Option Json := none
  formBody : Option (List (String × String)) := none
  rawBody : Option String := none

/-- One HTTP response: status code, raw body bytes (as a string) and the
result of parsing the raw body as JSON (`none` models a
`json.JSONDecodeError` from `response.json()`). -/
structure HttpResponse where
  status_code : Nat
  raw : String := ""
  json : Option Json := none

/-- The network: what response each request receives. -/
abbrev Net := HttpRequest → HttpResponse

/-- The `UiPath.Configuration` dataclass (uipath.py lines 90-116). -/
structure Configuration where
  url_base : Option String := none
  client_id : Option String := none
  refresh_token : Option String := none
  token : Option String := none
  scope : Option String := none

/-- The payload a method can return: a list of validated dicts or one
validated dict. -/
inductive Content where
  | list (ds : List Dict)
  | scalar (d : Dict)

/-- The `UiPath.Response` dataclass (uipath.py lines 118-141). -/
structure Response where
  status_code : Nat
  content : Option Content := none

/-- Everything observable about one method invocation: the configuration as
left behind (the source never mutates it), the HTTP requests issued in
order, the file written by `_export_to_json` (path and bytes), the returned
`Response` (`none` when the Python code raises), and the branch-dependent
log lines (the unconditional entry logs are constants and omitted). -/
structure Outcome where
  config : Configuration
  requests : List HttpRequest
  written : Option (String × String) := none
  result : Option Response
  logs : List String := []

/-- Python string interpolation of a `str | None` value: `None` prints as
the four characters `None`. -/
def pyStr : Option String → String
  | some s => s
  | none => "None"

/-- The header dict built at the top of every folder-scoped method. -/
def stdHeaders (token : Option String) (fid : String) : List (String × String) :=
  [("Content-Type", "application/json"),
   ("Authorization", "Bearer " ++ pyStr token),
   ("X-UIPATH-OrganizationUnitID", fid)]

/-- The header dict built by `list_roles` (uipath.py lines 1744-1747): no
organization-unit header. -/
def rolesHeaders (token : Option String) : List (String × String) :=
  [("Content-Type", "application/json"),
   ("Authorization", "Bearer " ++ pyStr token)]

/-- The `$select` query parameter: the comma-joined vendor aliases of a
model's fields (every field in models.py has an alias). -/
def selectParam (fs : List FieldSpec) : List (String × String) :=
  [("$select", String.intercalate "," (fs.map (·.falias)))]

/-- `_handle_response` with `rtype="list"` (uipath.py lines 362-369):
`response.json()["value"]` must be an array whose every record validates;
`none` models the exception otherwise. -/
def handleList (validate : Json → Option Dict) (resp : HttpResponse) : Option (List Dict) :=
  match resp.json with
  | some j =>
      match j.getKey "value" with
      | some (Json.arr rs) => rs.mapM validate
      | _ => none
  | none => none

/-- `_handle_response` with `rtype="scalar"` (uipath.py lines 354-360). -/
def handleScalar (fs : List FieldSpec) (resp : HttpResponse) : Option Dict :=
  match resp.json with
  | some j => validateModel fs j
  | none => none

/-- The common tail of every `list_*` method (uipath.py, e.g. lines
415-426): on status 200 log success, export the raw body when `save_as` is
given, and deserialize the `"value"` array; on any other status return
content `None`. -/
def listOutcome (cfg : Configuration) (validate : Json → Option Dict) (req : HttpRequest)
    (resp : HttpResponse) (save_as : Option String) : Outcome :=
  if resp.status_code = 200 then
    { config := cfg
      requests := [req]
      written := save_as.map (fun p => (p, resp.raw))
      result := (handleList validate resp).map
        (fun ds => { status_code := resp.status_code, content := some (Content.list ds) })
      logs := ["Request successful"] }
  else
    { config := cfg
      requests := [req]
      written := none
      result := some { status_code := resp.status_code, content := none }
      logs := [] }

/-- The common tail of `get_queue_item` / `add_queue_item`: like
`listOutcome` but scalar deserialization against a given success code. -/
def scalarOutcome (cfg : Configuration) (fs : List FieldSpec) (req : HttpRequest)
    (resp : HttpResponse) (save_as : Option String) (success : Nat) : Outcome :=
  if resp.status_code = success then
    { config := cfg
      requests := [req]
      written := save_as.map (fun p => (p, resp.raw))
      result := (handleScalar fs resp).map
        (fun d => { status_code := resp.status_code, content := some (Content.scalar d) })
      logs := ["Request successful"] }
  else
    { config := cfg
      requests := [req]
      written := none
      result := some { status_code := resp.status_code, content := none }
      logs := [] }

/-- The common tail of the mutating methods whose content is always `None`
(`create_bucket`, `delete_bucket`, `delete_bucket_file`, `stop_job`,
`update_queue_item`, `delete_queue_item`): only a success log depends on
the status. -/
def simpleOutcome (cfg : Configuration) (req : HttpRequest) (resp : HttpResponse)
    (success : Nat) : Outcome :=
  { config := cfg
    requests := [req]
    written := none
    result := some { status_code := resp.status_code, content := none }
    logs := if resp.status_code = success then ["Request successful"] else [] }

/-- The token request built by `auth` (uipath.py lines 262-290). -/
def authRequest (cfg : Configuration) : HttpRequest :=
  { verb := "POST"
    url := "https://cloud.uipath.com/adidas/identity_/connect/token"
    headers := [("Connection", "keep-alive"),
                ("Content-Type", "application/x-www-form-urlencoded")]
    formBody := some
      [("grant_type", "client_credentials"),
       ("client_id", pyStr cfg.client_id),
       ("client_secret", pyStr cfg.refresh_token),
       ("scope", pyStr cfg.scope)] }

/-- `UiPath.auth` (uipath.py lines 231-297): POST the client-credentials
form; only on status 200 store `access_token` from the body. A 200 body
that fails to parse or lacks a string `access_token` raises (`none`); any
other status leaves the configuration untouched. -/
def auth (cfg : Configuration) (net : Net) : Option Configuration :=
  let resp := net (authRequest cfg)
  if resp.status_code = 200 then
    match resp.json.bind (fun j => j.getKey "access_token") with
    | some (Json.str t) => some { cfg with token := some t }
    | _ => none
  else
    some cfg

/-- `UiPath.is_auth` (uipath.py lines 214-229). -/
def is_auth (cfg : Configuration) : Bool :=
  match cfg.token with
  | none => false
  | some _ => true

/-- `UiPath.__init__` (uipath.py lines 143-189): store the credentials with
`token=None`, then authenticate. -/
def init (url_base client_id refresh_token scope : String) (net : Net) : Option Configuration :=
  auth
    { url_base := some url_base
      client_id := some client_id
      refresh_token := some refresh_token
      token := none
      scope := some scope } net

/-- `UiPath.list_assets` (uipath.py lines 372-426). -/
def list_assets (cfg : Configuration) (fid : String) (save_as : Option String) (net : Net) : Outcome :=
  let req : HttpRequest :=
    { verb := "GET"
      url := pyStr cfg.url_base ++ "/odata/Assets"
      headers := stdHeaders cfg.token fid
      params := selectParam ListAssets.fields }
  listOutcome cfg (validateModel ListAssets.fields) req (net req) save_as

/-- `UiPath.list_buckets` (uipath.py lines 429-486). -/
def list_buckets (cfg : Configuration) (fid : String) (save_as : Option String) (net : Net) : Outcome :=
  let req : HttpRequest :=
    { verb := "GET"
      url := pyStr cfg.url_base ++ "/odata/Buckets"
      headers := stdHeaders cfg.token fid
      params := selectParam ListBuckets.fields }
  listOutcome cfg (validateModel ListBuckets.fields) req (net req) save_as

/-- `UiPath.create_bucket` (uipath.py lines 488-556). -/
def create_bucket (cfg : Configuration) (fid name guid : String)
    (description : Option String) (net : Net) : Outcome :=
  let descr := description.getD ""
  let body : Json := Json.obj
    [("Name", Json.str name),
     ("Description", Json.str descr),
     ("Identifier", Json.str guid),
     ("StorageProvider", Json.null),
     ("StorageParameters", Json.null),
     ("StorageContainer", Json.null),
     ("CredentialStoreId", Json.null),
     ("ExternalName", Json.null),
     ("Password", Json.null),
     ("FoldersCount", Json.int 0),
     ("Id", Json.int 0)]
  let req : HttpRequest :=
    { verb := "POST"
      url := pyStr cfg.url_base ++ "/odata/Buckets"
      headers := stdHeaders cfg.token fid
      jsonBody := some body }
  simpleOutcome cfg req (net req) 201

/-- `UiPath.delete_bucket` (uipath.py lines 558-602). -/
def delete_bucket (cfg : Configuration) (fid id : String) (net : Net) : Outcome :=
  let req : HttpRequest :=
    { verb := "DELETE"
      url := pyStr cfg.url_base ++ "/odata/Buckets(" ++ id ++ ")"
      headers := stdHeaders cfg.token fid }
  simpleOutcome cfg req (net req) 204

/-- The GetWriteUri request built by `upload_bucket_file` (uipath.py lines
637-645). -/
def uploadGetRequest (cfg : Configuration) (fid id remotepath : String) : HttpRequest :=
  let server_conf := "UiPath.Server.Configuration.OData"
  { verb := "GET"
    url := pyStr cfg.url_base ++ "/odata/Buckets(" ++ id ++ ")/" ++ server_conf
            ++ ".GetWriteUri?path=" ++ remotepath ++ "&expiryInMinutes=0"
    headers := stdHeaders cfg.token fid }

/-- `UiPath.upload_bucket_file` (uipath.py lines 604-668). `localfile` is
the byte content of the local file at `localpath`. On a 200 GetWriteUri
response the body's `"Uri"` is extracted (raising — `none` — unless it is a
string) and a second PUT uploads the file with only the blob-type header;
the returned status code is then the PUT's. -/
def upload_bucket_file (cfg : Configuration) (fid id localpath remotepath : String)
    (localfile : String) (net : Net) : Outcome :=
  let req : HttpRequest := uploadGetRequest cfg fid id remotepath
  let resp := net req
  if resp.status_code = 200 then
    match resp.json.bind (fun j => j.getKey "Uri") with
    | some (Json.str uri) =>
        let req2 : HttpRequest :=
          { verb := "PUT"
            url := uri
            headers := [("x-ms-blob-type", "BlockBlob")]
            rawBody := some localfile }
        let resp2 := net req2
        { config := cfg
          requests := [req, req2]
          written := none
          result := some { status_code := resp2.status_code, content := none }
          logs := if resp2.status_code = 200 then ["File uploaded successfully"] else [] }
    | _ =>
        { config := cfg, requests := [req], written := none, result := none, logs := [] }
  else
    { config := cfg
      requests := [req]
      written := none
      result := some { status_code := resp.status_code, content := none }
      logs := [] }

/-- `UiPath.delete_bucket_file` (uipath.py lines 670-718). -/
def delete_bucket_file (cfg : Configuration) (fid id filename : String) (net : Net) : Outcome :=
  let req : HttpRequest :=
    { verb := "DELETE"
      url := pyStr cfg.url_base ++ "/odata/Buckets(" ++ id
              ++ ")/UiPath.Server.Configuration.OData.DeleteFile?path=" ++ filename
      headers := stdHeaders cfg.token fid }
  simpleOutcome cfg req (net req) 204

/-- `UiPath.list_calendars` (uipath.py lines 721-775). -/
def list_calendars (cfg : Configuration) (fid : String) (save_as : Option String) (net : Net) : Outcome :=
  let req : HttpRequest :=
    { verb := "GET"
      url := pyStr cfg.url_base ++ "/odata/Calendars"
      headers := stdHeaders cfg.token fid
      params := selectParam ListCalendars.fields }
  listOutcome cfg (validateModel ListCalendars.fields) req (net req) save_as

/-- `UiPath.list_environments` (uipath.py lines 778-836). -/
def list_environments (cfg : Configuration) (fid : String) (save_as : Option String) (net : Net) : Outcome :=
  let req : HttpRequest :=
    { verb := "GET"
      url := pyStr cfg.url_base ++ "/odata/Environments"
      headers := stdHeaders cfg.token fid
      params := selectParam ListEnvironments.fields }
  listOutcome cfg (validateModel ListEnvironments.fields) req (net req) save_as

/-- `UiPath.list_jobs` (uipath.py lines 839-900). -/
def list_jobs (cfg : Configuration) (fid filter : String) (save_as : Option String) (net : Net) : Outcome :=
  let req : HttpRequest :=
    { verb := "GET"
      url := pyStr cfg.url_base ++ "/odata/Jobs"
      headers := stdHeaders cfg.token fid
      params := selectParam ListJobs.fields ++ [("$filter", filter)] }
  listOutcome cfg (validateModel ListJobs.fields) req (net req) save_as

/-- `UiPath.start_job` (uipath.py lines 902-981): POST StartJobs; the
returned `Response` always has content `None` and no status code is
checked. -/
def start_job (cfg : Configuration) (fid process_key : String) (robot_id : Option Int)
    (net : Net) : Outcome :=
  let body : Json :=
    match robot_id with
    | some rid =>
        Json.obj [("startInfo", Json.obj
          [("ReleaseKey", Json.str process_key),
           ("Strategy", Json.str "Specific"),
           ("RobotIds", Json.arr [Json.int rid]),
           ("JobsCount", Json.int 0),
           ("Source", Json.str "Manual")])]
    | none =>
        Json.obj [("startInfo", Json.obj
          [("ReleaseKey", Json.str process_key),
           ("Strategy", Json.str "JobsCount"),
           ("JobsCount", Json.int 1),
           ("Source", Json.str "Manual")])]
  let req : HttpRequest :=
    { verb := "POST"
      url := pyStr cfg.url_base ++ "/odata/Jobs/UiPath.Server.Configuration.OData.StartJobs"
      headers := stdHeaders cfg.token fid
      jsonBody := some body }
  let resp := net req
  { config := cfg
    requests := [req]
    written := none
    result := some { status_code := resp.status_code, content := none }
    logs := [] }

/-- `UiPath.stop_job` (uipath.py lines 983-1033). -/
def stop_job (cfg : Configuration) (fid id : String) (net : Net) : Outcome :=
  let req : HttpRequest :=
    { verb := "POST"
      url := pyStr cfg.url_base ++ "/odata/Jobs(" ++ id
              ++ ")/UiPath.Server.Configuration.OData.StopJob"
      headers := stdHeaders cfg.token fid
      jsonBody := some (Json.obj [("strategy", Json.str "2")]) }
  simpleOutcome cfg req (net req) 200

/-- `UiPath.list_machines` (uipath.py lines 1036-1090); deserialization uses
the `ListMachines` schema with its `robot_versions` pre-validator. -/
def list_machines (cfg : Configuration) (fid : String) (save_as : Option String) (net : Net) : Outcome :=
  let req : HttpRequest :=
    { verb := "GET"
      url := pyStr cfg.url_base ++ "/odata/Machines"
      headers := stdHeaders cfg.token fid
      params := selectParam ListMachines.fields }
  listOutcome cfg validateMachines req (net req) save_as

/-- `UiPath.list_processes` (uipath.py lines 1093-1147). -/
def list_processes (cfg : Configuration) (fid : String) (save_as : Option String) (net : Net) : Outcome :=
  let req : HttpRequest :=
    { verb := "GET"
      url := pyStr cfg.url_base ++ "/odata/Processes"
      headers := stdHeaders cfg.token fid
      params := selectParam ListProcesses.fields }
  listOutcome cfg (validateModel ListProcesses.fields) req (net req) save_as

/-- `UiPath.list_queues` (uipath.py lines 1150-1204). -/
def list_queues (cfg : Configuration) (fid : String) (save_as : Option String) (net : Net) : Outcome :=
  let req : HttpRequest :=
    { verb := "GET"
      url := pyStr cfg.url_base ++ "/odata/QueueDefinitions"
      headers := stdHeaders cfg.token fid
      params := selectParam ListQueues.fields }
  listOutcome cfg (validateModel ListQueues.fields) req (net req) save_as

/-- `UiPath.list_queue_items` (uipath.py lines 1206-1264). -/
def list_queue_items (cfg : Configuration) (fid filter : String) (save_as : Option String)
    (net : Net) : Outcome :=
  let req : HttpRequest :=
    { verb := "GET"
      url := pyStr cfg.url_base ++ "/odata/QueueItems"
      headers := stdHeaders cfg.token fid
      params := selectParam ListQueueItems.fields ++ [("$filter", filter)] }
  listOutcome cfg (validateModel ListQueueItems.fields) req (net req) save_as

/-- `UiPath.get_queue_item` (uipath.py lines 1266-1323): scalar
deserialization against `GetQueueItem`, success code 200. -/
def get_queue_item (cfg : Configuration) (fid : String) (id : Int) (save_as : Option String)
    (net : Net) : Outcome :=
  let req : HttpRequest :=
    { verb := "GET"
      url := pyStr cfg.url_base ++ "/odata/QueueItems(" ++ toString id ++ ")"
      headers := stdHeaders cfg.token fid
      params := selectParam GetQueueItem.fields }
  scalarOutcome cfg GetQueueItem.fields req (net req) save_as 200

/-- `UiPath.add_queue_item` (uipath.py lines 1325-1419): POST AddQueueItem;
a 409 logs a duplicate-reference warning, a 201 deserializes the body
against `AddQueueItem`; `data` is the `SpecificContent` dict. -/
def add_queue_item (cfg : Configuration) (fid queue : String) (data : Json) (reference : String)
    (priority : String) (save_as : Option String) (net : Net) : Outcome :=
  let body : Json := Json.obj [("itemData", Json.obj
    [("Name", Json.str queue),
     ("Priority", Json.str priority),
     ("DeferDate", Json.null),
     ("DueDate", Json.null),
     ("Reference", Json.str reference),
     ("SpecificContent", data)])]
  let req : HttpRequest :=
    { verb := "POST"
      url := pyStr cfg.url_base ++ "/odata/Queues/UiPathODataSvc.AddQueueItem"
      headers := stdHeaders cfg.token fid
      params := selectParam AddQueueItem.fields
      jsonBody := some body }
  let resp := net req
  let warnLogs :=
    if resp.status_code = 409
    then ["Item with reference " ++ reference ++ " already in the queue"]
    else []
  let o := scalarOutcome cfg AddQueueItem.fields req resp save_as 201
  { o with logs := warnLogs ++ o.logs }

/-- `UiPath.update_queue_item` (uipath.py lines 1421-1486). -/
def update_queue_item (cfg : Configuration) (fid queue : String) (id : Int) (data : Json)
    (net : Net) : Outcome :=
  let body : Json := Json.obj
    [("Name", Json.str queue),
     ("Priority", Json.str "High"),
     ("SpecificContent", data),
     ("DeferDate", Json.null),
     ("DueDate", Json.null),
     ("RiskSlaDate", Json.null)]
  let req : HttpRequest :=
    { verb := "PUT"
      url := pyStr cfg.url_base ++ "/odata/QueueItems(" ++ toString id ++ ")"
      headers := stdHeaders cfg.token fid
      jsonBody := some body }
  simpleOutcome cfg req (net req) 200

/-- `UiPath.delete_queue_item` (uipath.py lines 1488-1535). -/
def delete_queue_item (cfg : Configuration) (fid : String) (id : Int) (net : Net) : Outcome :=
  let req : HttpRequest :=
    { verb := "DELETE"
      url := pyStr cfg.url_base ++ "/odata/QueueItems(" ++ toString id ++ ")"
      headers := stdHeaders cfg.token fid }
  simpleOutcome cfg req (net req) 204

/-- `UiPath.list_releases` (uipath.py lines 1538-1592). -/
def list_releases (cfg : Configuration) (fid : String) (save_as : Option String) (net : Net) : Outcome :=
  let req : HttpRequest :=
    { verb := "GET"
      url := pyStr cfg.url_base ++ "/odata/Releases"
      headers := stdHeaders cfg.token fid
      params := selectParam ListReleases.fields }
  listOutcome cfg (validateModel ListReleases.fields) req (net req) save_as

/-- `UiPath.list_robots` (uipath.py lines 1595-1649). -/
def list_robots (cfg : Configuration) (fid : String) (save_as : Option String) (net : Net) : Outcome :=
  let req : HttpRequest :=
    { verb := "GET"
      url := pyStr cfg.url_base ++ "/odata/Robots"
      headers := stdHeaders cfg.token fid
      params := selectParam ListRobots.fields }
  listOutcome cfg (validateModel ListRobots.fields) req (net req) save_as

/-- `UiPath.list_robot_logs` (uipath.py lines 1651-1717). -/
def list_robot_logs (cfg : Configuration) (fid filter : String) (save_as : Option String)
    (net : Net) : Outcome :=
  let req : HttpRequest :=
    { verb := "GET"
      url := pyStr cfg.url_base ++ "/odata/RobotLogs"
      headers := stdHeaders cfg.token fid
      params := selectParam ListRobotLogs.fields ++ [("$filter", filter)] }
  listOutcome cfg (validateModel ListRobotLogs.fields) req (net req) save_as

/-- `UiPath.list_roles` (uipath.py lines 1720-1775): the only list method
without a `fid` parameter; its headers carry no
`X-UIPATH-OrganizationUnitID`. -/
def list_roles (cfg : Configuration) (save_as : Option String) (net : Net) : Outcome :=
  let req : HttpRequest :=
    { verb := "GET"
      url := pyStr cfg.url_base ++ "/odata/Roles"
      headers := rolesHeaders cfg.token
      params := selectParam ListRoles.fields }
  listOutcome cfg (validateModel ListRoles.fields) req (net req) save_as

/-- `UiPath.list_schedules` (uipath.py lines 1778-1832). -/
def list_schedules (cfg : Configuration) (fid : String) (save_as : Option String) (net : Net) : Outcome :=
  let req : HttpRequest :=
    { verb := "GET"
      url := pyStr cfg.url_base ++ "/odata/ProcessSchedules"
      headers := stdHeaders cfg.token fid
      params := selectParam ListSchedules.fields }
  listOutcome cfg (validateModel ListSchedules.fields) req (net req) save_as

/-- `UiPath.list_sessions` (uipath.py lines 1835-1892). -/
def list_sessions (cfg : Configuration) (fid : String) (save_as : Option String) (net : Net) : Outcome :=
  let req : HttpRequest :=
    { verb := "GET"
      url := pyStr cfg.url_base ++ "/odata/Sessions"
      headers := stdHeaders cfg.token fid
      params := selectParam ListSessions.fields }
  listOutcome cfg (validateModel ListSessions.fields) req (net req) save_as

/-!
## Helper lemmas about the shared method tails
-/

/-- What a method invocation looks like apart from the echoed status code:
the returned content (or `none` for an exception), the written file, and
the branch-dependent log lines. -/
def obs (o : Outcome) : Option (Option Content) × Option (String × String) × List String :=
  (o.result.map (fun r => r.content), o.written, o.logs)

/-- Headers of the first request an invocation issued. -/
def firstHeaders (o : Outcome) : Option (List (String × String)) :=
  o.requests.head?.map (fun r => r.headers)

/-- An invocation that "fails closed" at status `s`: it returns a `Response`
carrying `s` with content `None`, and it sent exactly one HTTP request. -/
def failsTo (o : Outcome) (s : Nat) : Prop :=
  o.result = some { status_code := s, content := none } ∧ o.requests.length = 1

/-- The C1 property of one list-returning method (as a function of the
response it receives): a 200 response whose `"value"` key holds an array of
records that all validate yields exactly the validated dicts, and a non-2xx
response yields content `None`. -/
def listClaimAt (run : HttpResponse → Outcome) (validate : Json → Option Dict) : Prop :=
  (∀ (resp : HttpResponse) (rs : List Json) (ds : List Dict),
      resp.status_code = 200 →
      resp.json.bind (fun j => j.getKey "value") = some (Json.arr rs) →
      rs.mapM validate = some ds →
      (run resp).result = some { status_code := 200, content := some (Content.list ds) })
  ∧ (∀ resp : HttpResponse, ¬ (200 ≤ resp.status_code ∧ resp.status_code ≤ 299) →
      (run resp).result = some { status_code := resp.status_code, content := none })

/-- A method whose observable behavior (everything but the echoed status
code) depends on the status only through the single comparison with `c`. -/
def FactorsAt (run : Nat → Outcome) (c : Nat) : Prop :=
  ∀ s s' : Nat, ((s = c) ↔ (s' = c)) → obs (run s) = obs (run s')

/-- A method whose returned content can be non-`None` only at status `c`. -/
def ContentOnlyAt (run : Nat → Outcome) (c : Nat) : Prop :=
  ∀ (s : Nat) (res : Response), (run s).result = some res → res.content ≠ none → s = c

/-- A fixed configuration for the concrete witnesses and counterexamples. -/
def cfg0 : Configuration :=
  { url_base := some "https://orch", client_id := some "cid",
    refresh_token := some "rt", token := some "tok", scope := some "Sc" }

/-- A valid `AddQueueItem` response body. -/
def aqiBody : Json :=
  Json.obj [("Id", Json.int 11), ("OrganizationUnitId", Json.int 22),
            ("QueueDefinitionId", Json.int 33)]

/-- `add_queue_item` at a fixed queue and body, as a function of the HTTP
status code it receives. -/
def aqiAt (s : Nat) : Outcome :=
  add_queue_item cfg0 "7" "q" (Json.obj []) "ref" "Normal" none
    (fun _ => { status_code := s, raw := "", json := some aqiBody })

/-- A network whose every response is a 200 carrying a write URI. -/
def netUri : Net :=
  fun _ => { status_code := 200, raw := "",
             json := some (Json.obj [("Uri", Json.str "https://blob")]) }

/-- One vendor machine record whose `RobotVersions` is a list of dicts. -/
def machineRec : List (String × Json) :=
  [("Id", Json.int 1), ("Name", Json.str "m"), ("Description", Json.null),
   ("Type", Json.str "Standard"), ("NonProductionSlots", Json.int 0),
   ("UnattendedSlots", Json.int 2),
   ("RobotVersions", Json.arr [Json.obj [("Version", Json.str "21.4")]])]

/-- The dict `ListMachines` validation produces for `machineRec`. -/
def machineDict : Dict :=
  [("id", Json.int 1), ("name", Json.str "m"), ("description", Json.null),
   ("type", Json.str "Standard"), ("non_production_slots", Json.int 0),
   ("unattended_slots", Json.int 2), ("robot_versions", Json.str "21.4")]

/-- One vendor bucket record. -/
def bucketRec : Json :=
  Json.obj [("Id", Json.int 5), ("Identifier", Json.str "g-1"),
            ("Name", Json.str "bkt"), ("Description", Json.null)]

/-- The dict `ListBuckets` validation produces for `bucketRec`. -/
def bucketDict : Dict :=
  [("id", Json.int 5), ("identifier", Json.str "g-1"),
   ("name", Json.str "bkt"), ("description", Json.null)]

/-- A 200 response whose `"value"` array holds exactly `bucketRec`. -/
def bucketResp : HttpResponse :=
  { status_code := 200, raw := "rawbody",
    json := some (Json.obj [("value", Json.arr [bucketRec])]) }

theorem listOutcome_pos (cfg : Configuration) (v : Json → Option Dict) (req : HttpRequest)
    (resp : HttpResponse) (sa : Option String) (h : resp.status_code = 200) :
    listOutcome cfg v req resp sa =
      { config := cfg
        requests := [req]
        written := sa.map (fun p => (p, resp.raw))
        result := (handleList v resp).map
          (fun ds => { status_code := resp.status_code, content := some (Content.list ds) })
        logs := ["Request successful"] } := by
  unfold listOutcome
  rw [if_pos h]

theorem listOutcome_neg (cfg : Configuration) (v : Json → Option Dict) (req : HttpRequest)
    (resp : HttpResponse) (sa : Option String) (h : resp.status_code ≠ 200) :
    listOutcome cfg v req resp sa =
      { config := cfg
        requests := [req]
        written := none
        result := some { status_code := resp.status_code, content := none }
        logs := [] } := by
  unfold listOutcome
  rw [if_neg h]

theorem scalarOutcome_pos (cfg : Configuration) (fs : List FieldSpec) (req : HttpRequest)
    (resp : HttpResponse) (sa : Option String) (c : Nat) (h : resp.status_code = c) :
    scalarOutcome cfg fs req resp sa c =
      { config := cfg
        requests := [req]
        written := sa.map (fun p => (p, resp.raw))
        result := (handleScalar fs resp).map
          (fun d => { status_code := resp.status_code, content := some (Content.scalar d) })
        logs := ["Request successful"] } := by
  unfold scalarOutcome
  rw [if_pos h]

theorem scalarOutcome_neg (cfg : Configuration) (fs : List FieldSpec) (req : HttpRequest)
    (resp : HttpResponse) (sa : Option String) (c : Nat) (h : resp.status_code ≠ c) :
    scalarOutcome cfg fs req resp sa c =
      { config := cfg
        requests := [req]
        written := none
        result := some { status_code := resp.status_code, content := none }
        logs := [] } := by
  unfold scalarOutcome
  rw [if_neg h]

theorem listOutcome_config (cfg : Configuration) (v : Json → Option Dict) (req : HttpRequest)
    (resp : HttpResponse) (sa : Option String) :
    (listOutcome cfg v req resp sa).config = cfg := by
  unfold listOutcome
  split <;> rfl

theorem scalarOutcome_config (cfg : Configuration) (fs : List FieldSpec) (req : HttpRequest)
    (resp : HttpResponse) (sa : Option String) (c : Nat) :
    (scalarOutcome cfg fs req resp sa c).config = cfg := by
  unfold scalarOutcome
  split <;> rfl

theorem simpleOutcome_config (cfg : Configuration) (req : HttpRequest) (resp : HttpResponse)
    (c : Nat) : (simpleOutcome cfg req resp c).config = cfg := rfl

theorem upload_bucket_file_config (cfg : Configuration) (fid id lp rp lf : String) (net : Net) :
    (upload_bucket_file cfg fid id lp rp lf net).config = cfg := by
  unfold upload_bucket_file
  dsimp only
  split
  · split <;> rfl
  · rfl

theorem listOutcome_requests (cfg : Configuration) (v : Json → Option Dict) (req : HttpRequest)
    (resp : HttpResponse) (sa : Option String) :
    (listOutcome cfg v req resp sa).requests = [req] := by
  unfold listOutcome
  split <;> rfl

theorem scalarOutcome_requests (cfg : Configuration) (fs : List FieldSpec) (req : HttpRequest)
    (resp : HttpResponse) (sa : Option String) (c : Nat) :
    (scalarOutcome cfg fs req resp sa c).requests = [req] := by
  unfold scalarOutcome
  split <;> rfl

theorem simpleOutcome_requests (cfg : Configuration) (req : HttpRequest) (resp : HttpResponse)
    (c : Nat) : (simpleOutcome cfg req resp c).requests = [req] := rfl

theorem listOutcome_written (cfg : Configuration) (v : Json → Option Dict) (req : HttpRequest)
    (resp : HttpResponse) (sa : Option String) :
    (listOutcome cfg v req resp sa).written =
      if resp.status_code = 200 then sa.map (fun p => (p, resp.raw)) else none := by
  by_cases h : resp.status_code = 200
  · rw [listOutcome_pos cfg v req resp sa h, if_pos h]
  · rw [listOutcome_neg cfg v req resp sa h, if_neg h]

theorem scalarOutcome_written (cfg : Configuration) (fs : List FieldSpec) (req : HttpRequest)
    (resp : HttpResponse) (sa : Option String) (c : Nat) :
    (scalarOutcome cfg fs req resp sa c).written =
      if resp.status_code = c then sa.map (fun p => (p, resp.raw)) else none := by
  by_cases h : resp.status_code = c
  · rw [scalarOutcome_pos cfg fs req resp sa c h, if_pos h]
  · rw [scalarOutcome_neg cfg fs req resp sa c h, if_neg h]

/-!
## Claim theorems
-/

/-- C7: raw-response persistence is exactly optional and verbatim — for
every method with a `save_as` parameter, a file is written precisely when
`save_as` is given and the response status equals the method's success code
(200, or 201 for `add_queue_item`), and the bytes written are the raw
response body unchanged; otherwise nothing is written. -/
theorem C7_save_as_exact :
    ∀ (cfg : Configuration) (fid filt q ref pr : String) (qid : Int) (d : Json)
      (sa : Option String) (resp : HttpResponse),
      (list_assets cfg fid sa (fun _ => resp)).written =
        (if resp.status_code = 200 then sa.map (fun p => (p, resp.raw)) else none) ∧
      (list_buckets cfg fid sa (fun _ => resp)).written =
        (if resp.status_code = 200 then sa.map (fun p => (p, resp.raw)) else none) ∧
      (list_calendars cfg fid sa (fun _ => resp)).written =
        (if resp.status_code = 200 then sa.map (fun p => (p, resp.raw)) else none) ∧
      (list_environments cfg fid sa (fun _ => resp)).written =
        (if resp.status_code = 200 then sa.map (fun p => (p, resp.raw)) else none) ∧
      (list_jobs cfg fid filt sa (fun _ => resp)).written =
        (if resp.status_code = 200 then sa.map (fun p => (p, resp.raw)) else none) ∧
      (list_machines cfg fid sa (fun _ => resp)).written =
        (if resp.status_code = 200 then sa.map (fun p => (p, resp.raw)) else none) ∧
      (list_processes cfg fid sa (fun _ => resp)).written =
        (if resp.status_code = 200 then sa.map (fun p => (p, resp.raw)) else none) ∧
      (list_queues cfg fid sa (fun _ => resp)).written =
        (if resp.status_code = 200 then sa.map (fun p => (p, resp.raw)) else none) ∧
      (list_queue_items cfg fid filt sa (fun _ => resp)).written =
        (if resp.status_code = 200 then sa.map (fun p => (p, resp.raw)) else none) ∧
      (get_queue_item cfg fid qid sa (fun _ => resp)).written =
        (if resp.status_code = 200 then sa.map (fun p => (p, resp.raw)) else none) ∧
      (add_queue_item cfg fid q d ref pr sa (fun _ => resp)).written =
        (if resp.status_code = 201 then sa.map (fun p => (p, resp.raw)) else none) ∧
      (list_releases cfg fid sa (fun _ => resp)).written =
        (if resp.status_code = 200 then sa.map (fun p => (p, resp.raw)) else none) ∧
      (list_robots cfg fid sa (fun _ => resp)).written =
        (if resp.status_code = 200 then sa.map (fun p => (p, resp.raw)) else none) ∧
      (list_robot_logs cfg fid filt sa (fun _ => resp)).written =
        (if resp.status_code = 200 then sa.map (fun p => (p, resp.raw)) else none) ∧
      (list_roles cfg sa (fun _ => resp)).written =
        (if resp.status_code = 200 then sa.map (fun p => (p, resp.raw)) else none) ∧
      (list_schedules cfg fid sa (fun _ => resp)).written =
        (if resp.status_code = 200 then sa.map (fun p => (p, resp.raw)) else none) ∧
      (list_sessions cfg fid sa (fun _ => resp)).written =
        (if resp.status_code = 200 then sa.map (fun p => (p, resp.raw)) else none) := by
  intro cfg fid filt q ref pr qid d sa resp
  refine ⟨?_, ?_, ?_, ?_, ?_, ?_, ?_, ?_, ?_, ?_, ?_, ?_, ?_, ?_, ?_, ?_, ?_⟩ <;>
    first
      | apply listOutcome_written
      | apply scalarOutcome_written


/-- C6: the bearer token is fetched once at construction and never refreshed
afterwards — no API method modifies the stored configuration (`url_base`,
`client_id`, `refresh_token`, `token`, `scope`): every operation leaves the
whole `Configuration` (in particular the `token` field) exactly as it found
it. (`auth` itself is invoked only from `init`, which the embedding mirrors:
no method definition refers to `auth`.) -/
theorem C6_config_never_modified :
    ∀ (cfg : Configuration) (fid name guid id fn filt pk q ref pr lp rp lf : String)
      (descr sa : Option String) (orid : Option Int) (qid : Int) (d : Json) (net : Net),
      (list_assets cfg fid sa net).config = cfg ∧
      (list_buckets cfg fid sa net).config = cfg ∧
      (create_bucket cfg fid name guid descr net).config = cfg ∧
      (delete_bucket cfg fid id net).config = cfg ∧
      (upload_bucket_file cfg fid id lp rp lf net).config = cfg ∧
      (delete_bucket_file cfg fid id fn net).config = cfg ∧
      (list_calendars cfg fid sa net).config = cfg ∧
      (list_environments cfg fid sa net).config = cfg ∧
      (list_jobs cfg fid filt sa net).config = cfg ∧
      (start_job cfg fid pk orid net).config = cfg ∧
      (stop_job cfg fid id net).config = cfg ∧
      (list_machines cfg fid sa net).config = cfg ∧
      (list_processes cfg fid sa net).config = cfg ∧
      (list_queues cfg fid sa net).config = cfg ∧
      (list_queue_items cfg fid filt sa net).config = cfg ∧
      (get_queue_item cfg fid qid sa net).config = cfg ∧
      (add_queue_item cfg fid q d ref pr sa net).config = cfg ∧
      (update_queue_item cfg fid q qid d net).config = cfg ∧
      (delete_queue_item cfg fid qid net).config = cfg ∧
      (list_releases cfg fid sa net).config = cfg ∧
      (list_robots cfg fid sa net).config = cfg ∧
      (list_robot_logs cfg fid filt sa net).config = cfg ∧
      (list_roles cfg sa net).config = cfg ∧
      (list_schedules cfg fid sa net).config = cfg ∧
      (list_sessions cfg fid sa net).config = cfg := by
  intro cfg fid name guid id fn filt pk q ref pr lp rp lf descr sa orid qid d net
  refine ⟨?_, ?_, ?_, ?_, ?_, ?_, ?_, ?_, ?_, ?_, ?_, ?_, ?_, ?_, ?_, ?_, ?_, ?_, ?_,
          ?_, ?_, ?_, ?_, ?_, ?_⟩ <;>
    first
      | rfl
      | apply listOutcome_config
      | apply scalarOutcome_config
      | apply simpleOutcome_config
      | apply upload_bucket_file_config

/-- C9: when the token endpoint answers the construction-time request with
any status other than 200, the constructor completes without raising, the
stored token stays `None` and `is_auth` returns `false`; and in general
`is_auth` returns `true` exactly when a token is stored. -/
theorem C9_silent_auth_failure :
    (∀ (u c r s : String) (net : Net),
      (net (authRequest
        { url_base := some u, client_id := some c, refresh_token := some r,
          token := none, scope := some s })).status_code ≠ 200 →
      ∃ cfg : Configuration,
        init u c r s net = some cfg ∧ cfg.token = none ∧ is_auth cfg = false)
    ∧ (∀ cfg : Configuration, is_auth cfg = true ↔ cfg.token ≠ none) := by
  constructor
  · intro u c r s net h
    have e : init u c r s net = some
        { url_base := some u, client_id := some c, refresh_token := some r,
          token := none, scope := some s } := by
      unfold init auth
      rw [if_neg h]
    exact ⟨_, e, rfl, rfl⟩
  · intro cfg
    cases h : cfg.token <;> simp [is_auth, h]

theorem C9_witness :
    ∃ cfg : Configuration,
      init "https://o" "cid" "rt" "Sc" (fun _ => { status_code := 401 }) = some cfg ∧
      cfg.token = none ∧ is_auth cfg = false :=
  C9_silent_auth_failure.1 "https://o" "cid" "rt" "Sc" (fun _ => { status_code := 401 })
    (by decide)

/-- C10: the `GetQueueItem` and `ListQueueItems` schemas declare the same
fields with the same aliases, types and optionality, so validating any JSON
record against one succeeds exactly when it does against the other, with
the same resulting dict. -/
theorem C10_queue_item_schemas_equivalent :
    GetQueueItem.fields = ListQueueItems.fields ∧
    ∀ j : Json, validateModel GetQueueItem.fields j = validateModel ListQueueItems.fields j :=
  ⟨rfl, fun _ => rfl⟩

theorem listOutcome_failsTo (cfg : Configuration) (v : Json → Option Dict) (req : HttpRequest)
    (resp : HttpResponse) (sa : Option String) (h : resp.status_code ≠ 200) :
    failsTo (listOutcome cfg v req resp sa) resp.status_code := by
  rw [listOutcome_neg cfg v req resp sa h]
  exact ⟨rfl, rfl⟩

theorem scalarOutcome_failsTo (cfg : Configuration) (fs : List FieldSpec) (req : HttpRequest)
    (resp : HttpResponse) (sa : Option String) (c : Nat) (h : resp.status_code ≠ c) :
    failsTo (scalarOutcome cfg fs req resp sa c) resp.status_code := by
  rw [scalarOutcome_neg cfg fs req resp sa c h]
  exact ⟨rfl, rfl⟩

theorem simpleOutcome_failsTo (cfg : Configuration) (req : HttpRequest) (resp : HttpResponse)
    (c : Nat) : failsTo (simpleOutcome cfg req resp c) resp.status_code :=
  ⟨rfl, rfl⟩

theorem upload_bucket_file_failsTo (cfg : Configuration) (fid id lp rp lf : String) (net : Net)
    (h : (net (uploadGetRequest cfg fid id rp)).status_code ≠ 200) :
    failsTo (upload_bucket_file cfg fid id lp rp lf net)
      (net (uploadGetRequest cfg fid id rp)).status_code := by
  unfold upload_bucket_file
  dsimp only
  rw [if_neg h]
  exact ⟨rfl, rfl⟩

/-- C2: for every API method, any status code other than the method's single
expected success code yields a `Response` with content `None`, and no
second request is sent after such a status: the invocation issued exactly
one HTTP request (`start_job`, which never inspects the status, satisfies
this for every status code). -/
theorem C2_nonexpected_status_fails_closed :
    ∀ (cfg : Configuration) (fid name guid id fn filt pk q ref pr lp rp lf : String)
      (descr sa : Option String) (orid : Option Int) (qid : Int) (d : Json)
      (resp : HttpResponse) (net : Net),
      (resp.status_code ≠ 200 → failsTo (list_assets cfg fid sa (fun _ => resp)) resp.status_code) ∧
      (resp.status_code ≠ 200 → failsTo (list_buckets cfg fid sa (fun _ => resp)) resp.status_code) ∧
      (resp.status_code ≠ 201 → failsTo (create_bucket cfg fid name guid descr (fun _ => resp)) resp.status_code) ∧
      (resp.status_code ≠ 204 → failsTo (delete_bucket cfg fid id (fun _ => resp)) resp.status_code) ∧
      ((net (uploadGetRequest cfg fid id rp)).status_code ≠ 200 →
        failsTo (upload_bucket_file cfg fid id lp rp lf net)
          (net (uploadGetRequest cfg fid id rp)).status_code) ∧
      (resp.status_code ≠ 204 → failsTo (delete_bucket_file cfg fid id fn (fun _ => resp)) resp.status_code) ∧
      (resp.status_code ≠ 200 → failsTo (list_calendars cfg fid sa (fun _ => resp)) resp.status_code) ∧
      (resp.status_code ≠ 200 → failsTo (list_environments cfg fid sa (fun _ => resp)) resp.status_code) ∧
      (resp.status_code ≠ 200 → failsTo (list_jobs cfg fid filt sa (fun _ => resp)) resp.status_code) ∧
      (failsTo (start_job cfg fid pk orid (fun _ => resp)) resp.status_code) ∧
      (resp.status_code ≠ 200 → failsTo (stop_job cfg fid id (fun _ => resp)) resp.status_code) ∧
      (resp.status_code ≠ 200 → failsTo (list_machines cfg fid sa (fun _ => resp)) resp.status_code) ∧
      (resp.status_code ≠ 200 → failsTo (list_processes cfg fid sa (fun _ => resp)) resp.status_code) ∧
      (resp.status_code ≠ 200 → failsTo (list_queues cfg fid sa (fun _ => resp)) resp.status_code) ∧
      (resp.status_code ≠ 200 → failsTo (list_queue_items cfg fid filt sa (fun _ => resp)) resp.status_code) ∧
      (resp.status_code ≠ 200 → failsTo (get_queue_item cfg fid qid sa (fun _ => resp)) resp.status_code) ∧
      (resp.status_code ≠ 201 → failsTo (add_queue_item cfg fid q d ref pr sa (fun _ => resp)) resp.status_code) ∧
      (resp.status_code ≠ 200 → failsTo (update_queue_item cfg fid q qid d (fun _ => resp)) resp.status_code) ∧
      (resp.status_code ≠ 204 → failsTo (delete_queue_item cfg fid qid (fun _ => resp)) resp.status_code) ∧
      (resp.status_code ≠ 200 → failsTo (list_releases cfg fid sa (fun _ => resp)) resp.status_code) ∧
      (resp.status_code ≠ 200 → failsTo (list_robots cfg fid sa (fun _ => resp)) resp.status_code) ∧
      (resp.status_code ≠ 200 → failsTo (list_robot_logs cfg fid filt sa (fun _ => resp)) resp.status_code) ∧
      (resp.status_code ≠ 200 → failsTo (list_roles cfg sa (fun _ => resp)) resp.status_code) ∧
      (resp.status_code ≠ 200 → failsTo (list_schedules cfg fid sa (fun _ => resp)) resp.status_code) ∧
      (resp.status_code ≠ 200 → failsTo (list_sessions cfg fid sa (fun _ => resp)) resp.status_code) := by
  intro cfg fid name guid id fn filt pk q ref pr lp rp lf descr sa orid qid d resp net
  refine ⟨?_, ?_, ?_, ?_, ?_, ?_, ?_, ?_, ?_, ?_, ?_, ?_, ?_, ?_, ?_, ?_, ?_, ?_, ?_,
          ?_, ?_, ?_, ?_, ?_, ?_⟩ <;>
    first
      | exact fun h => listOutcome_failsTo _ _ _ _ _ h
      | exact fun h => scalarOutcome_failsTo _ _ _ _ _ _ h
      | exact fun h => simpleOutcome_failsTo _ _ _ _
      | exact fun h => upload_bucket_file_failsTo _ _ _ _ _ _ _ h
      | exact ⟨rfl, rfl⟩

theorem C2_witness :
    failsTo (list_assets cfg0 "7" none (fun _ => { status_code := 503 })) 503 ∧
    failsTo (add_queue_item cfg0 "7" "q" (Json.obj []) "r" "Normal" none
      (fun _ => { status_code := 503 })) 503 := by
  have h := C2_nonexpected_status_fails_closed cfg0 "7" "n" "g" "5" "f" "" "pk" "q" "r"
    "Normal" "lp" "rp" "lf" none none none 0 (Json.obj []) { status_code := 503 }
    (fun _ => { status_code := 503 })
  exact ⟨h.1 (by decide), (h.2.2.2.2.2.2.2.2.2.2.2.2.2.2.2.2).1 (by decide)⟩

theorem listOutcome_claimAt (cfg : Configuration) (v : Json → Option Dict) (req : HttpRequest)
    (sa : Option String) :
    listClaimAt (fun resp => listOutcome cfg v req resp sa) v := by
  constructor
  · intro resp rs ds h200 hval hmap
    have hl : handleList v resp = some ds := by
      unfold handleList
      cases hj : resp.json with
      | none =>
        rw [hj] at hval
        exact absurd hval (by simp [Option.bind])
      | some j =>
        rw [hj] at hval
        dsimp only
        rw [show j.getKey "value" = some (Json.arr rs) from hval]
        exact hmap
    dsimp only
    rw [listOutcome_pos cfg v req resp sa h200]
    dsimp only
    rw [hl, h200]
    rfl
  · intro resp hn
    have h : resp.status_code ≠ 200 := by
      intro e
      exact hn ⟨by omega, by omega⟩
    dsimp only
    rw [listOutcome_neg cfg v req resp sa h]

/-- C1: every list-returning method, given a 200 response whose JSON body
has a `"value"` array of records each valid for the method's schema,
returns a `Response` whose content is exactly the list of dicts obtained by
validating each record (vendor aliases mapped to local field names); given
a non-2xx status it returns content `None`. -/
theorem C1_list_methods_deserialize :
    ∀ (cfg : Configuration) (fid filt : String) (sa : Option String),
      listClaimAt (fun resp => list_assets cfg fid sa (fun _ => resp))
        (validateModel ListAssets.fields) ∧
      listClaimAt (fun resp => list_buckets cfg fid sa (fun _ => resp))
        (validateModel ListBuckets.fields) ∧
      listClaimAt (fun resp => list_calendars cfg fid sa (fun _ => resp))
        (validateModel ListCalendars.fields) ∧
      listClaimAt (fun resp => list_environments cfg fid sa (fun _ => resp))
        (validateModel ListEnvironments.fields) ∧
      listClaimAt (fun resp => list_jobs cfg fid filt sa (fun _ => resp))
        (validateModel ListJobs.fields) ∧
      listClaimAt (fun resp => list_machines cfg fid sa (fun _ => resp))
        validateMachines ∧
      listClaimAt (fun resp => list_processes cfg fid sa (fun _ => resp))
        (validateModel ListProcesses.fields) ∧
      listClaimAt (fun resp => list_queues cfg fid sa (fun _ => resp))
        (validateModel ListQueues.fields) ∧
      listClaimAt (fun resp => list_queue_items cfg fid filt sa (fun _ => resp))
        (validateModel ListQueueItems.fields) ∧
      listClaimAt (fun resp => list_releases cfg fid sa (fun _ => resp))
        (validateModel ListReleases.fields) ∧
      listClaimAt (fun resp => list_robots cfg fid sa (fun _ => resp))
        (validateModel ListRobots.fields) ∧
      listClaimAt (fun resp => list_robot_logs cfg fid filt sa (fun _ => resp))
        (validateModel ListRobotLogs.fields) ∧
      listClaimAt (fun resp => list_roles cfg sa (fun _ => resp))
        (validateModel ListRoles.fields) ∧
      listClaimAt (fun resp => list_schedules cfg fid sa (fun _ => resp))
        (validateModel ListSchedules.fields) ∧
      listClaimAt (fun resp => list_sessions cfg fid sa (fun _ => resp))
        (validateModel ListSessions.fields) := by
  intro cfg fid filt sa
  refine ⟨?_, ?_, ?_, ?_, ?_, ?_, ?_, ?_, ?_, ?_, ?_, ?_, ?_, ?_, ?_⟩ <;>
    exact listOutcome_claimAt _ _ _ _

theorem C1_witness :
    (list_buckets cfg0 "7" none (fun _ => bucketResp)).result =
      some { status_code := 200, content := some (Content.list [bucketDict]) } ∧
    (list_buckets cfg0 "7" none
        (fun _ => { status_code := 404 })).result =
      some { status_code := 404, content := none } := by
  have h := (C1_list_methods_deserialize cfg0 "7" "" none).2.1
  refine ⟨?_, ?_⟩
  · exact h.1 bucketResp [bucketRec] [bucketDict] rfl rfl rfl
  · exact h.2 { status_code := 404 } (by decide)

theorem listOutcome_one_request (cfg : Configuration) (v : Json → Option Dict)
    (req : HttpRequest) (resp : HttpResponse) (sa : Option String) :
    (listOutcome cfg v req resp sa).requests.length = 1 := by
  rw [listOutcome_requests]
  rfl

theorem scalarOutcome_one_request (cfg : Configuration) (fs : List FieldSpec)
    (req : HttpRequest) (resp : HttpResponse) (sa : Option String) (c : Nat) :
    (scalarOutcome cfg fs req resp sa c).requests.length = 1 := by
  rw [scalarOutcome_requests]
  rfl

theorem upload_two_requests (cfg : Configuration) (fid id lp rp lf : String) (net : Net)
    (uri : String) (h200 : (net (uploadGetRequest cfg fid id rp)).status_code = 200)
    (huri : (net (uploadGetRequest cfg fid id rp)).json.bind (fun j => j.getKey "Uri") =
      some (Json.str uri)) :
    (upload_bucket_file cfg fid id lp rp lf net).requests.length = 2 := by
  unfold upload_bucket_file
  dsimp only
  rw [if_pos h200, huri]
  rfl

theorem upload_one_request_bad_uri (cfg : Configuration) (fid id lp rp lf : String) (net : Net)
    (h200 : (net (uploadGetRequest cfg fid id rp)).status_code = 200)
    (huri : ∀ uri : String,
      (net (uploadGetRequest cfg fid id rp)).json.bind (fun j => j.getKey "Uri") ≠
        some (Json.str uri)) :
    (upload_bucket_file cfg fid id lp rp lf net).requests.length = 1 := by
  unfold upload_bucket_file
  dsimp only
  rw [if_pos h200]
  split
  · next uri heq => exact absurd heq (huri uri)
  · rfl

/-- C5 counterexample: with a network that answers the GetWriteUri GET with
status 200 and a string `Uri`, one `upload_bucket_file` invocation issues
two HTTP requests, not one. -/
theorem C5_counterexample :
    (upload_bucket_file cfg0 "7" "5" "lp" "rp" "data" netUri).requests.length ≠ 1 := by
  have e : (upload_bucket_file cfg0 "7" "5" "lp" "rp" "data" netUri).requests.length = 2 := rfl
  omega

/-- C5 (amended): every public API method other than `upload_bucket_file`
issues exactly one HTTP request per invocation regardless of the response;
`upload_bucket_file` issues one request when the GetWriteUri GET does not
return 200 (or returns 200 without a string `"Uri"` in the body) and two
requests when it returns 200 with a string `"Uri"`. -/
theorem C5_amended_one_call_except_upload :
    ∀ (cfg : Configuration) (fid name guid id fn filt pk q ref pr lp rp lf : String)
      (descr sa : Option String) (orid : Option Int) (qid : Int) (d : Json) (net : Net),
      ((net (uploadGetRequest cfg fid id rp)).status_code ≠ 200 →
        (upload_bucket_file cfg fid id lp rp lf net).requests.length = 1) ∧
      (∀ uri : String, (net (uploadGetRequest cfg fid id rp)).status_code = 200 →
        (net (uploadGetRequest cfg fid id rp)).json.bind (fun j => j.getKey "Uri") =
          some (Json.str uri) →
        (upload_bucket_file cfg fid id lp rp lf net).requests.length = 2) ∧
      ((net (uploadGetRequest cfg fid id rp)).status_code = 200 →
        (∀ uri : String,
          (net (uploadGetRequest cfg fid id rp)).json.bind (fun j => j.getKey "Uri") ≠
            some (Json.str uri)) →
        (upload_bucket_file cfg fid id lp rp lf net).requests.length = 1) ∧
      (list_assets cfg fid sa net).requests.length = 1 ∧
      (list_buckets cfg fid sa net).requests.length = 1 ∧
      (create_bucket cfg fid name guid descr net).requests.length = 1 ∧
      (delete_bucket cfg fid id net).requests.length = 1 ∧
      (delete_bucket_file cfg fid id fn net).requests.length = 1 ∧
      (list_calendars cfg fid sa net).requests.length = 1 ∧
      (list_environments cfg fid sa net).requests.length = 1 ∧
      (list_jobs cfg fid filt sa net).requests.length = 1 ∧
      (start_job cfg fid pk orid net).requests.length = 1 ∧
      (stop_job cfg fid id net).requests.length = 1 ∧
      (list_machines cfg fid sa net).requests.length = 1 ∧
      (list_processes cfg fid sa net).requests.length = 1 ∧
      (list_queues cfg fid sa net).requests.length = 1 ∧
      (list_queue_items cfg fid filt sa net).requests.length = 1 ∧
      (get_queue_item cfg fid qid sa net).requests.length = 1 ∧
      (add_queue_item cfg fid q d ref pr sa net).requests.length = 1 ∧
      (update_queue_item cfg fid q qid d net).requests.length = 1 ∧
      (delete_queue_item cfg fid qid net).requests.length = 1 ∧
      (list_releases cfg fid sa net).requests.length = 1 ∧
      (list_robots cfg fid sa net).requests.length = 1 ∧
      (list_robot_logs cfg fid filt sa net).requests.length = 1 ∧
      (list_roles cfg sa net).requests.length = 1 ∧
      (list_schedules cfg fid sa net).requests.length = 1 ∧
      (list_sessions cfg fid sa net).requests.length = 1 := by
  intro cfg fid name guid id fn filt pk q ref pr lp rp lf descr sa orid qid d net
  refine ⟨?_, ?_, ?_, ?_, ?_, ?_, ?_, ?_, ?_, ?_, ?_, ?_, ?_, ?_, ?_, ?_, ?_, ?_, ?_,
          ?_, ?_, ?_, ?_, ?_, ?_, ?_, ?_⟩ <;>
    first
      | exact fun h => (upload_bucket_file_failsTo _ _ _ _ _ _ _ h).2
      | exact fun uri h200 huri => upload_two_requests _ _ _ _ _ _ _ uri h200 huri
      | exact fun h200 huri => upload_one_request_bad_uri _ _ _ _ _ _ _ h200 huri
      | exact listOutcome_one_request _ _ _ _ _
      | exact scalarOutcome_one_request _ _ _ _ _ _
      | rfl

theorem C5_witness :
    (upload_bucket_file cfg0 "7" "5" "lp" "rp" "data" netUri).requests.length = 2 ∧
    (upload_bucket_file cfg0 "7" "5" "lp" "rp" "data"
      (fun _ => { status_code := 401 })).requests.length = 1 := by
  have h := C5_amended_one_call_except_upload cfg0 "7" "n" "g" "5" "f" "" "pk" "q" "r"
    "Normal" "lp" "rp" "data" none none none 0 (Json.obj []) netUri
  have h' := C5_amended_one_call_except_upload cfg0 "7" "n" "g" "5" "f" "" "pk" "q" "r"
    "Normal" "lp" "rp" "data" none none none 0 (Json.obj [])
    (fun _ => { status_code := 401 })
  exact ⟨h.2.1 "https://blob" rfl rfl, h'.1 (by decide)⟩

theorem listOutcome_firstHeaders (cfg : Configuration) (v : Json → Option Dict)
    (req : HttpRequest) (resp : HttpResponse) (sa : Option String) :
    firstHeaders (listOutcome cfg v req resp sa) = some req.headers := by
  unfold firstHeaders
  rw [listOutcome_requests]
  rfl

theorem scalarOutcome_firstHeaders (cfg : Configuration) (fs : List FieldSpec)
    (req : HttpRequest) (resp : HttpResponse) (sa : Option String) (c : Nat) :
    firstHeaders (scalarOutcome cfg fs req resp sa c) = some req.headers := by
  unfold firstHeaders
  rw [scalarOutcome_requests]
  rfl

theorem simpleOutcome_firstHeaders (cfg : Configuration) (req : HttpRequest)
    (resp : HttpResponse) (c : Nat) :
    firstHeaders (simpleOutcome cfg req resp c) = some req.headers := rfl

theorem upload_firstHeaders (cfg : Configuration) (fid id lp rp lf : String) (net : Net) :
    firstHeaders (upload_bucket_file cfg fid id lp rp lf net) =
      some (uploadGetRequest cfg fid id rp).headers := by
  unfold upload_bucket_file firstHeaders
  dsimp only
  split
  · split <;> rfl
  · rfl

theorem upload_tail_headers (cfg : Configuration) (fid id lp rp lf : String) (net : Net) :
    ∀ r ∈ (upload_bucket_file cfg fid id lp rp lf net).requests.tail,
      r.headers = [("x-ms-blob-type", "BlockBlob")] := by
  unfold upload_bucket_file
  dsimp only
  split
  · split
    · intro r hr
      simp only [List.tail_cons, List.mem_singleton] at hr
      subst hr
      rfl
    · intro r hr
      simp at hr
  · intro r hr
    simp at hr

theorem rolesHeaders_no_org (token : Option String) :
    ∀ p ∈ rolesHeaders token, p.1 ≠ "X-UIPATH-OrganizationUnitID" := by
  intro p hp
  simp only [rolesHeaders, List.mem_cons, List.mem_singleton, List.not_mem_nil,
    or_false] at hp
  rcases hp with h | h <;> subst h <;> simp

/-- C4 counterexample: `list_roles` issues its one request without any
`X-UIPATH-OrganizationUnitID` header (it does not even take a `fid`
argument), falsifying "every operation attaches the folder-scope header". -/
theorem C4_counterexample :
    (list_roles cfg0 none (fun _ => { status_code := 200 })).requests.map
      (fun r => r.headers.lookup "X-UIPATH-OrganizationUnitID") = [none] := rfl

/-- C4 (amended): every API method that takes a `fid` argument sends its
(first) request with headers containing both `Authorization: Bearer <token>`
and `X-UIPATH-OrganizationUnitID: <fid>`; `list_roles` sends only the
bearer header and no folder-scope header; and the second (blob PUT) request
of `upload_bucket_file` carries only the `x-ms-blob-type` header, neither
of the two. -/
theorem C4_amended_headers :
    ∀ (cfg : Configuration) (fid name guid id fn filt pk q ref pr lp rp lf : String)
      (descr sa : Option String) (orid : Option Int) (qid : Int) (d : Json) (net : Net),
      (("Authorization", "Bearer " ++ pyStr cfg.token) ∈ stdHeaders cfg.token fid ∧
        ("X-UIPATH-OrganizationUnitID", fid) ∈ stdHeaders cfg.token fid) ∧
      (("Authorization", "Bearer " ++ pyStr cfg.token) ∈ rolesHeaders cfg.token ∧
        ∀ p ∈ rolesHeaders cfg.token, p.1 ≠ "X-UIPATH-OrganizationUnitID") ∧
      firstHeaders (list_assets cfg fid sa net) = some (stdHeaders cfg.token fid) ∧
      firstHeaders (list_buckets cfg fid sa net) = some (stdHeaders cfg.token fid) ∧
      firstHeaders (create_bucket cfg fid name guid descr net) = some (stdHeaders cfg.token fid) ∧
      firstHeaders (delete_bucket cfg fid id net) = some (stdHeaders cfg.token fid) ∧
      firstHeaders (upload_bucket_file cfg fid id lp rp lf net) = some (stdHeaders cfg.token fid) ∧
      firstHeaders (delete_bucket_file cfg fid id fn net) = some (stdHeaders cfg.token fid) ∧
      firstHeaders (list_calendars cfg fid sa net) = some (stdHeaders cfg.token fid) ∧
      firstHeaders (list_environments cfg fid sa net) = some (stdHeaders cfg.token fid) ∧
      firstHeaders (list_jobs cfg fid filt sa net) = some (stdHeaders cfg.token fid) ∧
      firstHeaders (start_job cfg fid pk orid net) = some (stdHeaders cfg.token fid) ∧
      firstHeaders (stop_job cfg fid id net) = some (stdHeaders cfg.token fid) ∧
      firstHeaders (list_machines cfg fid sa net) = some (stdHeaders cfg.token fid) ∧
      firstHeaders (list_processes cfg fid sa net) = some (stdHeaders cfg.token fid) ∧
      firstHeaders (list_queues cfg fid sa net) = some (stdHeaders cfg.token fid) ∧
      firstHeaders (list_queue_items cfg fid filt sa net) = some (stdHeaders cfg.token fid) ∧
      firstHeaders (get_queue_item cfg fid qid sa net) = some (stdHeaders cfg.token fid) ∧
      firstHeaders (add_queue_item cfg fid q d ref pr sa net) = some (stdHeaders cfg.token fid) ∧
      firstHeaders (update_queue_item cfg fid q qid d net) = some (stdHeaders cfg.token fid) ∧
      firstHeaders (delete_queue_item cfg fid qid net) = some (stdHeaders cfg.token fid) ∧
      firstHeaders (list_releases cfg fid sa net) = some (stdHeaders cfg.token fid) ∧
      firstHeaders (list_robots cfg fid sa net) = some (stdHeaders cfg.token fid) ∧
      firstHeaders (list_robot_logs cfg fid filt sa net) = some (stdHeaders cfg.token fid) ∧
      firstHeaders (list_roles cfg sa net) = some (rolesHeaders cfg.token) ∧
      firstHeaders (list_schedules cfg fid sa net) = some (stdHeaders cfg.token fid) ∧
      firstHeaders (list_sessions cfg fid sa net) = some (stdHeaders cfg.token fid) ∧
      (∀ r ∈ (upload_bucket_file cfg fid id lp rp lf net).requests.tail,
        r.headers = [("x-ms-blob-type", "BlockBlob")]) := by
  intro cfg fid name guid id fn filt pk q ref pr lp rp lf descr sa orid qid d net
  refine ⟨⟨?_, ?_⟩, ⟨?_, ?_⟩, ?_, ?_, ?_, ?_, ?_, ?_, ?_, ?_, ?_, ?_, ?_, ?_, ?_, ?_,
          ?_, ?_, ?_, ?_, ?_, ?_, ?_, ?_, ?_, ?_, ?_, ?_⟩ <;>
    first
      | exact rolesHeaders_no_org _
      | exact listOutcome_firstHeaders _ _ _ _ _
      | exact scalarOutcome_firstHeaders _ _ _ _ _ _
      | exact simpleOutcome_firstHeaders _ _ _ _
      | exact upload_firstHeaders _ _ _ _ _ _ _
      | exact upload_tail_headers _ _ _ _ _ _ _
      | rfl
      | simp [stdHeaders]
      | simp [rolesHeaders]

theorem C4_witness :
    ("X-UIPATH-OrganizationUnitID", "7") ∈ stdHeaders cfg0.token "7" ∧
    firstHeaders (list_assets cfg0 "7" none (fun _ => { status_code := 200 })) =
      some (stdHeaders cfg0.token "7") ∧
    firstHeaders (list_roles cfg0 none (fun _ => { status_code := 200 })) =
      some (rolesHeaders cfg0.token) ∧
    ("Content-Type", "application/json").1 ≠ "X-UIPATH-OrganizationUnitID" := by
  have h := C4_amended_headers cfg0 "7" "n" "g" "5" "f" "" "pk" "q" "r" "Normal" "lp" "rp"
    "lf" none none none 0 (Json.obj []) (fun _ => { status_code := 200 })
  refine ⟨h.1.2, h.2.2.1, ?_, ?_⟩
  · exact h.2.2.2.2.2.2.2.2.2.2.2.2.2.2.2.2.2.2.2.2.2.2.2.2.1
  · exact h.2.1.2 ("Content-Type", "application/json") (by simp [rolesHeaders])

theorem coerce_id (t : FTy) (v w : Json) (h : coerce t v = some w) : w = v := by
  cases t <;> cases v <;> simp_all [coerce]

/-- C8 counterexample: validating a machine record whose `RobotVersions` is
`[{"Version": "21.4"}]` yields the transformed value `"21.4"`, not the input
value under the alias — the `extract_robot_version` validator is a genuine
field transformation, so not every schema is a pure field mapping. -/
theorem C8_counterexample :
    validateMachines (Json.obj machineRec) = some machineDict ∧
    machineRec.lookup "RobotVersions" =
      some (Json.arr [Json.obj [("Version", Json.str "21.4")]]) ∧
    machineDict.lookup "robot_versions" = some (Json.str "21.4") ∧
    Json.str "21.4" ≠ Json.arr [Json.obj [("Version", Json.str "21.4")]] := by
  refine ⟨rfl, rfl, rfl, ?_⟩
  intro h
  exact Json.noConfusion h

/-- C8 (amended): every declared field except `ListMachines.robot_versions`
is a pure alias-to-name mapping — whenever the generic field validator
succeeds, the output is the input value under the aliased key unchanged
(or `None` for an absent/null optional field); `ListMachines` validates its
other six fields the same way but computes `robot_versions` by the
`extract_robot_version` pre-validator from the aliased value. -/
theorem C8_amended_flat_mapping :
    (∀ (f : FieldSpec) (r : List (String × Json)) (n : String) (w : Json),
        validateField r f = some (n, w) →
        n = f.name ∧
          (r.lookup f.falias = some w ∨
            (w = Json.null ∧
              (r.lookup f.falias = none ∨ r.lookup f.falias = some Json.null))))
    ∧ (∀ r : List (String × Json),
        validateMachines (Json.obj r) = ListMachines.fields.mapM (validateMachinesField r) ∧
        ∀ f ∈ ListMachines.fields, f.name ≠ "robot_versions" →
          validateMachinesField r f = validateField r f)
    ∧ (∀ (r : List (String × Json)) (v : Json), r.lookup "RobotVersions" = some v →
        validateMachinesField r ⟨"robot_versions", "RobotVersions", FTy.str, true⟩ =
          (match extract_robot_version v with
           | Json.null => some ("robot_versions", Json.null)
           | w => (coerce FTy.str w).map (fun u => ("robot_versions", u)))) := by
  refine ⟨?_, ?_, ?_⟩
  · intro f r n w h
    unfold validateField at h
    split at h
    · next hl =>
      split at h
      · obtain ⟨h1, h2⟩ := Prod.mk.injEq .. ▸ Option.some.inj h
        exact ⟨h1.symm, Or.inr ⟨h2.symm, Or.inl hl⟩⟩
      · exact absurd h (by simp)
    · next hl =>
      split at h
      · obtain ⟨h1, h2⟩ := Prod.mk.injEq .. ▸ Option.some.inj h
        exact ⟨h1.symm, Or.inr ⟨h2.symm, Or.inr hl⟩⟩
      · exact absurd h (by simp)
    · next v0 hv hl =>
      obtain ⟨u, hu, hw⟩ := Option.map_eq_some'.mp h
      obtain ⟨h1, h2⟩ := Prod.mk.injEq .. ▸ hw
      refine ⟨h1.symm, Or.inl ?_⟩
      rw [hl, ← h2, coerce_id f.ty v0 u hu]
  · intro r
    refine ⟨rfl, ?_⟩
    intro f hf hne
    unfold validateMachinesField
    rw [if_neg hne]
  · intro r v h
    simp only [validateMachinesField, if_pos]
    rw [h]

theorem C8_witness :
    "id" = (FieldSpec.mk "id" "Id" FTy.int false).name ∧
    (([("Id", Json.int 5)] : List (String × Json)).lookup
        (FieldSpec.mk "id" "Id" FTy.int false).falias = some (Json.int 5) ∨
      (Json.int 5 = Json.null ∧
        (([("Id", Json.int 5)] : List (String × Json)).lookup
            (FieldSpec.mk "id" "Id" FTy.int false).falias = none ∨
          ([("Id", Json.int 5)] : List (String × Json)).lookup
            (FieldSpec.mk "id" "Id" FTy.int false).falias = some Json.null))) :=
  C8_amended_flat_mapping.1 (FieldSpec.mk "id" "Id" FTy.int false)
    [("Id", Json.int 5)] "id" (Json.int 5) rfl

theorem listOutcome_contentOnly (cfg : Configuration) (v : Json → Option Dict)
    (req : HttpRequest) (sa : Option String) (raw : String) (body : Option Json) :
    ContentOnlyAt
      (fun s => listOutcome cfg v req { status_code := s, raw := raw, json := body } sa)
      200 := by
  intro s res h hc
  by_cases hs : s = 200
  · exact hs
  · exfalso
    apply hc
    dsimp only at h
    rw [listOutcome_neg _ _ _ _ _ hs] at h
    rw [← Option.some.inj h]

theorem listOutcome_factors (cfg : Configuration) (v : Json → Option Dict)
    (req : HttpRequest) (sa : Option String) (raw : String) (body : Option Json) :
    FactorsAt
      (fun s => listOutcome cfg v req { status_code := s, raw := raw, json := body } sa)
      200 := by
  intro s s' hiff
  by_cases hs : s = 200
  · have hs' := hiff.mp hs
    subst hs
    subst hs'
    rfl
  · have hs' : ¬ s' = 200 := fun e => hs (hiff.mpr e)
    dsimp only
    rw [listOutcome_neg _ _ _ _ _ hs, listOutcome_neg _ _ _ _ _ hs']
    rfl

theorem scalarOutcome_contentOnly (cfg : Configuration) (fs : List FieldSpec)
    (req : HttpRequest) (sa : Option String) (c : Nat) (raw : String) (body : Option Json) :
    ContentOnlyAt
      (fun s => scalarOutcome cfg fs req { status_code := s, raw := raw, json := body } sa c)
      c := by
  intro s res h hc
  by_cases hs : s = c
  · exact hs
  · exfalso
    apply hc
    dsimp only at h
    rw [scalarOutcome_neg _ _ _ _ _ _ hs] at h
    rw [← Option.some.inj h]

theorem scalarOutcome_factors (cfg : Configuration) (fs : List FieldSpec)
    (req : HttpRequest) (sa : Option String) (c : Nat) (raw : String) (body : Option Json) :
    FactorsAt
      (fun s => scalarOutcome cfg fs req { status_code := s, raw := raw, json := body } sa c)
      c := by
  intro s s' hiff
  by_cases hs : s = c
  · have hs' := hiff.mp hs
    subst hs
    subst hs'
    rfl
  · have hs' : ¬ s' = c := fun e => hs (hiff.mpr e)
    dsimp only
    rw [scalarOutcome_neg _ _ _ _ _ _ hs, scalarOutcome_neg _ _ _ _ _ _ hs']
    rfl

theorem simpleOutcome_contentOnly (cfg : Configuration) (req : HttpRequest) (c : Nat)
    (raw : String) (body : Option Json) :
    ContentOnlyAt
      (fun s => simpleOutcome cfg req { status_code := s, raw := raw, json := body } c)
      c := by
  intro s res h hc
  exfalso
  apply hc
  rw [← Option.some.inj h]

theorem simpleOutcome_factors (cfg : Configuration) (req : HttpRequest) (c : Nat)
    (raw : String) (body : Option Json) :
    FactorsAt
      (fun s => simpleOutcome cfg req { status_code := s, raw := raw, json := body } c)
      c := by
  intro s s' hiff
  by_cases hs : s = c
  · have hs' := hiff.mp hs
    subst hs
    subst hs'
    rfl
  · have hs' : ¬ s' = c := fun e => hs (hiff.mpr e)
    unfold obs simpleOutcome
    dsimp only
    rw [if_neg hs, if_neg hs']
    rfl

theorem upload_contentOnly (cfg : Configuration) (fid id lp rp lf : String)
    (raw : String) (body : Option Json) :
    ContentOnlyAt
      (fun s => upload_bucket_file cfg fid id lp rp lf
        (fun _ => { status_code := s, raw := raw, json := body }))
      200 := by
  intro s res h hc
  exfalso
  apply hc
  dsimp only at h
  unfold upload_bucket_file at h
  dsimp only at h
  by_cases hs : s = 200
  · rw [if_pos hs] at h
    split at h
    · rw [← Option.some.inj h]
    · exact Option.noConfusion h
  · rw [if_neg hs] at h
    rw [← Option.some.inj h]

theorem upload_factors (cfg : Configuration) (fid id lp rp lf : String)
    (raw : String) (body : Option Json) :
    FactorsAt
      (fun s => upload_bucket_file cfg fid id lp rp lf
        (fun _ => { status_code := s, raw := raw, json := body }))
      200 := by
  intro s s' hiff
  by_cases hs : s = 200
  · have hs' := hiff.mp hs
    subst hs
    subst hs'
    rfl
  · have hs' : ¬ s' = 200 := fun e => hs (hiff.mpr e)
    dsimp only
    unfold upload_bucket_file
    dsimp only
    rw [if_neg hs, if_neg hs']
    rfl

theorem start_job_contentOnly (cfg : Configuration) (fid pk : String) (orid : Option Int)
    (raw : String) (body : Option Json) :
    ContentOnlyAt
      (fun s => start_job cfg fid pk orid
        (fun _ => { status_code := s, raw := raw, json := body }))
      200 := by
  intro s res h hc
  exfalso
  apply hc
  rw [← Option.some.inj h]

theorem add_queue_item_contentOnly (cfg : Configuration) (fid q ref pr : String) (d : Json)
    (sa : Option String) (raw : String) (body : Option Json) :
    ContentOnlyAt
      (fun s => add_queue_item cfg fid q d ref pr sa
        (fun _ => { status_code := s, raw := raw, json := body }))
      201 := by
  intro s res h hc
  by_cases hs : s = 201
  · exact hs
  · exfalso
    apply hc
    dsimp only at h
    unfold add_queue_item at h
    dsimp only at h
    rw [scalarOutcome_neg _ _ _ _ _ _ hs] at h
    rw [← Option.some.inj h]

theorem add_queue_item_two_comparisons (cfg : Configuration) (fid q ref pr : String)
    (d : Json) (sa : Option String) (raw : String) (body : Option Json) :
    ∀ s s' : Nat, ((s = 201) ↔ (s' = 201)) → ((s = 409) ↔ (s' = 409)) →
      obs (add_queue_item cfg fid q d ref pr sa
        (fun _ => { status_code := s, raw := raw, json := body })) =
      obs (add_queue_item cfg fid q d ref pr sa
        (fun _ => { status_code := s', raw := raw, json := body })) := by
  intro s s' h1 h9
  by_cases hs : s = 201
  · have hs' := h1.mp hs
    subst hs
    subst hs'
    rfl
  · have hs' : ¬ s' = 201 := fun e => hs (h1.mpr e)
    by_cases h409 : s = 409
    · have h409' := h9.mp h409
      subst h409
      subst h409'
      rfl
    · have h409' : ¬ s' = 409 := fun e => h409 (h9.mpr e)
      unfold add_queue_item
      dsimp only
      rw [if_neg h409, if_neg h409',
        scalarOutcome_neg _ _ _ _ _ _ hs, scalarOutcome_neg _ _ _ _ _ _ hs']
      rfl

/-- C3 counterexample: `add_queue_item` branches on two distinct status-code
values, 201 and 409: no single success code `c` makes its observable
behavior both "content non-`None` only at `c`" and a function of the lone
comparison with `c` — at status 409 it logs a duplicate-reference warning
that it does not log at 400. -/
theorem C3_counterexample :
    ¬ ∃ c : Nat, ContentOnlyAt aqiAt c ∧ FactorsAt aqiAt c := by
  rintro ⟨c, hco, hf⟩
  have hc201 : (201 : Nat) = c := by
    apply hco 201
      { status_code := 201,
        content := some (Content.scalar
          [("id", Json.int 11), ("organization_unit_id", Json.int 22),
           ("queue_definition_id", Json.int 33)]) }
      rfl
    simp
  subst hc201
  have h2 := hf 409 400 (by constructor <;> (intro e; omega))
  have e409 : obs (aqiAt 409) =
      (some none, none, ["Item with reference ref already in the queue"]) := rfl
  have e400 : obs (aqiAt 400) = (some none, none, []) := rfl
  rw [e409, e400] at h2
  simp at h2

/-- C3 (amended): every API method's returned content is non-`None` only at
that method's single success code, and every method except `add_queue_item`
checks exactly one status code — its observable behavior factors through
one comparison; `add_queue_item` branches on exactly two status codes, 201
(success) and 409, the latter only to log a duplicate-reference warning
(its content still appears only at 201). -/
theorem C3_amended_single_status_check :
    ∀ (cfg : Configuration) (fid name guid id fn filt pk q ref pr lp rp lf : String)
      (descr sa : Option String) (orid : Option Int) (qid : Int) (d : Json)
      (raw : String) (body : Option Json),
      (∃ c, ContentOnlyAt (fun s => list_assets cfg fid sa
          (fun _ => { status_code := s, raw := raw, json := body })) c ∧
        FactorsAt (fun s => list_assets cfg fid sa
          (fun _ => { status_code := s, raw := raw, json := body })) c) ∧
      (∃ c, ContentOnlyAt (fun s => list_buckets cfg fid sa
          (fun _ => { status_code := s, raw := raw, json := body })) c ∧
        FactorsAt (fun s => list_buckets cfg fid sa
          (fun _ => { status_code := s, raw := raw, json := body })) c) ∧
      (∃ c, ContentOnlyAt (fun s => create_bucket cfg fid name guid descr
          (fun _ => { status_code := s, raw := raw, json := body })) c ∧
        FactorsAt (fun s => create_bucket cfg fid name guid descr
          (fun _ => { status_code := s, raw := raw, json := body })) c) ∧
      (∃ c, ContentOnlyAt (fun s => delete_bucket cfg fid id
          (fun _ => { status_code := s, raw := raw, json := body })) c ∧
        FactorsAt (fun s => delete_bucket cfg fid id
          (fun _ => { status_code := s, raw := raw, json := body })) c) ∧
      (∃ c, ContentOnlyAt (fun s => upload_bucket_file cfg fid id lp rp lf
          (fun _ => { status_code := s, raw := raw, json := body })) c ∧
        FactorsAt (fun s => upload_bucket_file cfg fid id lp rp lf
          (fun _ => { status_code := s, raw := raw, json := body })) c) ∧
      (∃ c, ContentOnlyAt (fun s => delete_bucket_file cfg fid id fn
          (fun _ => { status_code := s, raw := raw, json := body })) c ∧
        FactorsAt (fun s => delete_bucket_file cfg fid id fn
          (fun _ => { status_code := s, raw := raw, json := body })) c) ∧
      (∃ c, ContentOnlyAt (fun s => list_calendars cfg fid sa
          (fun _ => { status_code := s, raw := raw, json := body })) c ∧
        FactorsAt (fun s => list_calendars cfg fid sa
          (fun _ => { status_code := s, raw := raw, json := body })) c) ∧
      (∃ c, ContentOnlyAt (fun s => list_environments cfg fid sa
          (fun _ => { status_code := s, raw := raw, json := body })) c ∧
        FactorsAt (fun s => list_environments cfg fid sa
          (fun _ => { status_code := s, raw := raw, json := body })) c) ∧
      (∃ c, ContentOnlyAt (fun s => list_jobs cfg fid filt sa
          (fun _ => { status_code := s, raw := raw, json := body })) c ∧
        FactorsAt (fun s => list_jobs cfg fid filt sa
          (fun _ => { status_code := s, raw := raw, json := body })) c) ∧
      (∃ c, ContentOnlyAt (fun s => start_job cfg fid pk orid
          (fun _ => { status_code := s, raw := raw, json := body })) c ∧
        FactorsAt (fun s => start_job cfg fid pk orid
          (fun _ => { status_code := s, raw := raw, json := body })) c) ∧
      (∃ c, ContentOnlyAt (fun s => stop_job cfg fid id
          (fun _ => { status_code := s, raw := raw, json := body })) c ∧
        FactorsAt (fun s => stop_job cfg fid id
          (fun _ => { status_code := s, raw := raw, json := body })) c) ∧
      (∃ c, ContentOnlyAt (fun s => list_machines cfg fid sa
          (fun _ => { status_code := s, raw := raw, json := body })) c ∧
        FactorsAt (fun s => list_machines cfg fid sa
          (fun _ => { status_code := s, raw := raw, json := body })) c) ∧
      (∃ c, ContentOnlyAt (fun s => list_processes cfg fid sa
          (fun _ => { status_code := s, raw := raw, json := body })) c ∧
        FactorsAt (fun s => list_processes cfg fid sa
          (fun _ => { status_code := s, raw := raw, json := body })) c) ∧
      (∃ c, ContentOnlyAt (fun s => list_queues cfg fid sa
          (fun _ => { status_code := s, raw := raw, json := body })) c ∧
        FactorsAt (fun s => list_queues cfg fid sa
          (fun _ => { status_code := s, raw := raw, json := body })) c) ∧
      (∃ c, ContentOnlyAt (fun s => list_queue_items cfg fid filt sa
          (fun _ => { status_code := s, raw := raw, json := body })) c ∧
        FactorsAt (fun s => list_queue_items cfg fid filt sa
          (fun _ => { status_code := s, raw := raw, json := body })) c) ∧
      (∃ c, ContentOnlyAt (fun s => get_queue_item cfg fid qid sa
          (fun _ => { status_code := s, raw := raw, json := body })) c ∧
        FactorsAt (fun s => get_queue_item cfg fid qid sa
          (fun _ => { status_code := s, raw := raw, json := body })) c) ∧
      (ContentOnlyAt (fun s => add_queue_item cfg fid q d ref pr sa
          (fun _ => { status_code := s, raw := raw, json := body })) 201 ∧
        ∀ s s' : Nat, ((s = 201) ↔ (s' = 201)) → ((s = 409) ↔ (s' = 409)) →
          obs (add_queue_item cfg fid q d ref pr sa
            (fun _ => { status_code := s, raw := raw, json := body })) =
          obs (add_queue_item cfg fid q d ref pr sa
            (fun _ => { status_code := s', raw := raw, json := body }))) ∧
      (∃ c, ContentOnlyAt (fun s => update_queue_item cfg fid q qid d
          (fun _ => { status_code := s, raw := raw, json := body })) c ∧
        FactorsAt (fun s => update_queue_item cfg fid q qid d
          (fun _ => { status_code := s, raw := raw, json := body })) c) ∧
      (∃ c, ContentOnlyAt (fun s => delete_queue_item cfg fid qid
          (fun _ => { status_code := s, raw := raw, json := body })) c ∧
        FactorsAt (fun s => delete_queue_item cfg fid qid
          (fun _ => { status_code := s, raw := raw, json := body })) c) ∧
      (∃ c, ContentOnlyAt (fun s => list_releases cfg fid sa
          (fun _ => { status_code := s, raw := raw, json := body })) c ∧
        FactorsAt (fun s => list_releases cfg fid sa
          (fun _ => { status_code := s, raw := raw, json := body })) c) ∧
      (∃ c, ContentOnlyAt (fun s => list_robots cfg fid sa
          (fun _ => { status_code := s, raw := raw, json := body })) c ∧
        FactorsAt (fun s => list_robots cfg fid sa
          (fun _ => { status_code := s, raw := raw, json := body })) c) ∧
      (∃ c, ContentOnlyAt (fun s => list_robot_logs cfg fid filt sa
          (fun _ => { status_code := s, raw := raw, json := body })) c ∧
        FactorsAt (fun s => list_robot_logs cfg fid filt sa
          (fun _ => { status_code := s, raw := raw, json := body })) c) ∧
      (∃ c, ContentOnlyAt (fun s => list_roles cfg sa
          (fun _ => { status_code := s, raw := raw, json := body })) c ∧
        FactorsAt (fun s => list_roles cfg sa
          (fun _ => { status_code := s, raw := raw, json := body })) c) ∧
      (∃ c, ContentOnlyAt (fun s => list_schedules cfg fid sa
          (fun _ => { status_code := s, raw := raw, json := body })) c ∧
        FactorsAt (fun s => list_schedules cfg fid sa
          (fun _ => { status_code := s, raw := raw, json := body })) c) ∧
      (∃ c, ContentOnlyAt (fun s => list_sessions cfg fid sa
          (fun _ => { status_code := s, raw := raw, json := body })) c ∧
        FactorsAt (fun s => list_sessions cfg fid sa
          (fun _ => { status_code := s, raw := raw, json := body })) c) := by
  intro cfg fid name guid id fn filt pk q ref pr lp rp lf descr sa orid qid d raw body
  refine ⟨?_, ?_, ?_, ?_, ?_, ?_, ?_, ?_, ?_, ?_, ?_, ?_, ?_, ?_, ?_, ?_, ?_, ?_, ?_,
          ?_, ?_, ?_, ?_, ?_, ?_⟩ <;>
    first
      | exact ⟨200, listOutcome_contentOnly _ _ _ _ _ _, listOutcome_factors _ _ _ _ _ _⟩
      | exact ⟨200, scalarOutcome_contentOnly _ _ _ _ 200 _ _,
               scalarOutcome_factors _ _ _ _ 200 _ _⟩
      | exact ⟨201, simpleOutcome_contentOnly _ _ 201 _ _, simpleOutcome_factors _ _ 201 _ _⟩
      | exact ⟨204, simpleOutcome_contentOnly _ _ 204 _ _, simpleOutcome_factors _ _ 204 _ _⟩
      | exact ⟨200, simpleOutcome_contentOnly _ _ 200 _ _, simpleOutcome_factors _ _ 200 _ _⟩
      | exact ⟨200, upload_contentOnly _ _ _ _ _ _ _ _, upload_factors _ _ _ _ _ _ _ _⟩
      | exact ⟨200, start_job_contentOnly _ _ _ _ _ _, fun s s' _ => rfl⟩
      | exact ⟨add_queue_item_contentOnly _ _ _ _ _ _ _ _ _,
               add_queue_item_two_comparisons _ _ _ _ _ _ _ _ _⟩

theorem C3_witness : obs (aqiAt 400) = obs (aqiAt 500) := by
  have h := C3_amended_single_status_check cfg0 "7" "n" "g" "5" "f" "" "pk" "q" "ref"
    "Normal" "lp" "rp" "lf" none none none 0 (Json.obj []) "" (some aqiBody)
  have h17 := h.2.2.2.2.2.2.2.2.2.2.2.2.2.2.2.2.1
  exact h17.2 400 500 (by constructor <;> (intro e; omega))
    (by constructor <;> (intro e; omega))

end UiPath
